import Mathlib

/-!
# State-synchronisation firmware (`src/main.c`): embedding and properties

The firmware polls five digital inputs, compares "desired" against "actual"
signals and emits 50 ms active-low pulses on three key lines; it also
classifies the supply voltage against a 3000 mV threshold and feeds a
watchdog once per loop iteration.

Modelling conventions.

* The C globals, the `static` counter of `Check_State_Changes`, the output
  latches and the registers `PCON` and `WDT_CONTR` are fields of `State`;
  the globals are grouped into
  `VoltageStatus`, `PreviousStateSnapshot` and `OutputLines` so that "this
  function leaves the snapshot alone" is one equation.
* Input pins are volatile: every read of a pin consumes one sample of the
  environment `Env.pins`, indexed by the number of pin reads made so far
  (`State.reads`).  Likewise each ADC conversion consumes one sample of
  `Env.ADC_RES` / `Env.ADC_RESL`, indexed by `State.conversions`.
* Everything the program does to the outside world is appended to
  `State.trace`: output-line writes, busy-wait delays, UART strings.  In
  addition each function listed in `Fn` appends a `call` marker on entry,
  so that "function `f` ran k times" is a count over the trace.
* `Check_State_Changes` is written as its sampling prologue followed by four
  stages (`Check_State_Changes_Key1`, `_Key2`, `_Key3`, `_Voltage`), one per
  `if` statement of the source, in source order.
* The hardware waits (`while(!TI)`, `while(!(ADC_CONTR & 0x20))`) are assumed
  to complete; port-mode, timer, UART and ADC configuration registers are
  not part of the state, since nothing in the program reads them back.
* `LVDF` (a bit mask declared in `STC8G.h`, which is not part of the
  sources) is a parameter of the functions that use it.
* Machine integers are `Nat` with explicit reduction modulo `2^w`.  The
  division of the target is `udiv`, undefined for a zero divisor: the body of
  `Get_VCC_Voltage` is `Get_VCC_Voltage_checked`, with values in `Option`, and
  `Get_VCC_Voltage` is its result, which exists because the guard of the
  source keeps every division defined.
-/

namespace HID

/-! ## Configuration constants -/

def POWER_CTRL_MODE : Nat := 1
def DELAY_0_5S : Nat := 500
def DELAY_0_05S : Nat := 50
def DELAY_10MS : Nat := 10
def VOLTAGE_THRESHOLD : Nat := 3000
def REF_VOLTAGE : Nat := 1190
def WDT_TIMEOUT_8S : Nat := 0x27
def WDT_CONFIG : Nat := WDT_TIMEOUT_8S
def LED1_ON_LEVEL : Nat := 1
def LED2_ON_LEVEL : Nat := 1
def LED3_ON_LEVEL : Nat := 1
def RELAY3_OPEN_LEVEL : Nat := 1

/-! ## Data model -/

/-- Levels of the digital input pins at one instant. -/
structure Pins where
  P32 : Bool
  P33 : Bool
  P34 : Bool
  P35 : Bool
  P13 : Bool
  P14 : Bool
deriving DecidableEq

/-- The environment: what the k-th pin read sees, and what the k-th ADC
conversion leaves in the result registers. -/
structure Env where
  pins : Nat → Pins
  ADC_RES : Nat → Nat
  ADC_RESL : Nat → Nat

/-- The four digital output lines. -/
inductive Line where
  | POWER_CTRL
  | KEY1_OUT
  | KEY2_OUT
  | KEY3_OUT
deriving DecidableEq

/-- Functions of the program whose entry is recorded in the trace. -/
inductive Fn where
  | System_Init
  | LVD_ADC_Init
  | WDT_Init
  | WDT_Feed
  | UART1_Init
  | Debug_Output_Status
  | Get_VCC_Voltage
  | Detect_Voltage_Status
  | Output_Key1_Pulse
  | Output_Key2_Pulse
  | Output_Key3_Pulse
  | Process_Key1_Logic
  | Process_Key2_Logic
  | Process_Key3_Logic
  | Check_State_Changes
  | LVD_ISR
deriving DecidableEq

/-- Observable events, in program order. -/
inductive Event where
  | call (f : Fn)
  | write (l : Line) (v : Bool)
  | delay (ms : Nat)
  | uart (str : String)
deriving DecidableEq

/-- The two voltage flags (`VoltageStatus` of the specification). -/
structure VoltageStatus where
  voltage_low_flag : Bool
  voltage_high_flag : Bool
deriving DecidableEq

/-- The five `last_*` globals (`PreviousStateSnapshot` of the specification). -/
structure PreviousStateSnapshot where
  last_human_state : Nat
  last_pir_state : Nat
  last_led1_state : Nat
  last_led2_state : Nat
  last_relay3_state : Nat
deriving DecidableEq

/-- Latches of the four output lines. -/
structure OutputLines where
  POWER_CTRL : Bool
  KEY1_OUT : Bool
  KEY2_OUT : Bool
  KEY3_OUT : Bool
deriving DecidableEq

/-- Program state: the C globals, the static counter of `Check_State_Changes`,
output latches, registers, environment cursors and the trace. -/
structure State extends VoltageStatus, PreviousStateSnapshot, OutputLines where
  voltage_check_counter : Nat
  PCON : Nat
  WDT_CONTR : Nat
  reads : Nat
  conversions : Nat
  trace : List Event

/-- State at reset: globals as initialised in the source, key lines not yet
driven, empty trace. -/
def State.reset : State :=
  { voltage_low_flag := false, voltage_high_flag := false,
    last_human_state := 0, last_pir_state := 0, last_led1_state := 0,
    last_led2_state := 0, last_relay3_state := 0, voltage_check_counter := 0,
    POWER_CTRL := false, KEY1_OUT := false, KEY2_OUT := false, KEY3_OUT := false,
    PCON := 0, WDT_CONTR := 0, reads := 0, conversions := 0, trace := [] }

/-! ## Primitives -/

/-- Append one event to the trace. -/
def emit (e : Event) (s : State) : State :=
  { s with trace := s.trace ++ [e] }

/-- Value of a bit as an unsigned integer. -/
def bit (b : Bool) : Nat := if b then 1 else 0

/-- One read of an input pin: the current sample, and the cursor advanced. -/
def readPin (env : Env) (sel : Pins → Bool) (s : State) : Bool × State :=
  (sel (env.pins s.reads), { s with reads := s.reads + 1 })

def HUMAN_2410S_IN (env : Env) (s : State) : Bool × State := readPin env Pins.P32 s
def PIR_IN (env : Env) (s : State) : Bool × State := readPin env Pins.P33 s
def LED1_STATUS (env : Env) (s : State) : Bool × State := readPin env Pins.P34 s
def LED2_STATUS (env : Env) (s : State) : Bool × State := readPin env Pins.P35 s
def LED3_STATUS (env : Env) (s : State) : Bool × State := readPin env Pins.P13 s
def RELAY3_FEEDBACK (env : Env) (s : State) : Bool × State := readPin env Pins.P14 s

/-- Assignment to an output line: the latch changes and the write is traced. -/
def setLine (l : Line) (v : Bool) (s : State) : State :=
  let s := emit (Event.write l v) s
  match l with
  | Line.POWER_CTRL => { s with POWER_CTRL := v }
  | Line.KEY1_OUT => { s with KEY1_OUT := v }
  | Line.KEY2_OUT => { s with KEY2_OUT := v }
  | Line.KEY3_OUT => { s with KEY3_OUT := v }

/-- The busy-wait `Delay_ms`: `ms * 2475` empty inner iterations, no effect on
the state other than elapsed time. -/
def Delay_ms (ms : Nat) (s : State) : State :=
  emit (Event.delay ms) s

/-- The blocking `UART1_Send_String`. -/
def UART1_Send_String (str : String) (s : State) : State :=
  emit (Event.uart str) s

/-- The text built by `UART1_Send_Voltage` in `buf`, each digit computed in
`uint8_t`. -/
def UART1_Send_Voltage_buf (volt : Nat) : String :=
  String.mk
    ['V', 'C', 'C', ':',
     Char.ofNat ((volt / 1000 + 48) % 256),
     Char.ofNat (((volt % 1000) / 100 + 48) % 256),
     Char.ofNat (((volt % 100) / 10 + 48) % 256),
     Char.ofNat ((volt % 10 + 48) % 256),
     'm', 'V', '\r', '\n']

def UART1_Send_Voltage (volt : Nat) (s : State) : State :=
  UART1_Send_String (UART1_Send_Voltage_buf volt) s

/-! ## Status readers -/

def Check_LED1_Status (env : Env) (s : State) : Bool × State :=
  let r := LED1_STATUS env s
  (decide (bit r.1 = LED1_ON_LEVEL), r.2)

def Check_LED2_Status (env : Env) (s : State) : Bool × State :=
  let r := LED2_STATUS env s
  (decide (bit r.1 = LED2_ON_LEVEL), r.2)

def Check_LED3_Status (env : Env) (s : State) : Bool × State :=
  let r := LED3_STATUS env s
  (decide (bit r.1 = LED3_ON_LEVEL), r.2)

def Check_Relay3_Status (env : Env) (s : State) : Bool × State :=
  let r := RELAY3_FEEDBACK env s
  (decide (bit r.1 = RELAY3_OPEN_LEVEL), r.2)

/-! ## Pulse emitters -/

def Output_Key1_Pulse (s : State) : State :=
  let s := emit (Event.call Fn.Output_Key1_Pulse) s
  let s := setLine Line.KEY1_OUT false s
  let s := Delay_ms DELAY_0_05S s
  setLine Line.KEY1_OUT true s

def Output_Key2_Pulse (s : State) : State :=
  let s := emit (Event.call Fn.Output_Key2_Pulse) s
  let s := setLine Line.KEY2_OUT false s
  let s := Delay_ms DELAY_0_05S s
  setLine Line.KEY2_OUT true s

def Output_Key3_Pulse (s : State) : State :=
  let s := emit (Event.call Fn.Output_Key3_Pulse) s
  let s := setLine Line.KEY3_OUT false s
  let s := Delay_ms DELAY_0_05S s
  setLine Line.KEY3_OUT true s

/-! ## Voltage monitor -/

/-- Unsigned integer division of the target: defined only for a divisor other
than 0. -/
def udiv (x y : Nat) : Option Nat :=
  if y = 0 then none else some (x / y)

/-- The body of `Get_VCC_Voltage`, statement by statement: one ADC conversion
and the conversion of its 12-bit result to millivolts. `adc_val` is
`uint16_t`, the quotient is computed in `uint32_t` with the division of the
target and stored in the `uint16_t` `voltage`. The result is `none` when a
division by 0 is executed. -/
def Get_VCC_Voltage_checked (env : Env) (s : State) : Option (Nat × State) :=
  let s := emit (Event.call Fn.Get_VCC_Voltage) s
  let res := env.ADC_RES s.conversions % 256
  let resl := env.ADC_RESL s.conversions % 256
  let s := { s with conversions := s.conversions + 1 }
  let adc_val := (res <<< 4) % 65536
  let adc_val := (adc_val ||| (resl &&& 0x0F)) % 65536
  if adc_val ≠ 0 then
    (udiv ((REF_VOLTAGE * 4096) % 4294967296) adc_val).map (fun q => (q % 65536, s))
  else
    some (0, s)

/-- The function `Get_VCC_Voltage`: the result of its body, which is always
defined because the guard `adc_val != 0` keeps the division away from a zero
divisor. -/
def Get_VCC_Voltage (env : Env) (s : State) : Nat × State :=
  (Get_VCC_Voltage_checked env s).get (by
    simp only [Get_VCC_Voltage_checked, udiv]
    split_ifs <;> rfl)

/-- The raw 12-bit value that `Get_VCC_Voltage` assembles in `adc_val` from the
result registers of the conversion with index `k`. -/
def adc_val (env : Env) (k : Nat) : Nat :=
  (((env.ADC_RES k % 256) <<< 4) % 65536 ||| (env.ADC_RESL k % 256 &&& 0x0F)) % 65536

/-- The body of `Detect_Voltage_Status` after `volt` has been read. -/
def Detect_Voltage_Status_with (volt : Nat) (s : State) : State :=
  if volt < VOLTAGE_THRESHOLD then
    let s := { s with voltage_low_flag := true }
    let s := { s with voltage_high_flag := false }
    let s := UART1_Send_String "Voltage Low detected: " s
    UART1_Send_Voltage volt s
  else
    let s := { s with voltage_low_flag := false }
    let s := { s with voltage_high_flag := true }
    let s := UART1_Send_String "Voltage High detected: " s
    UART1_Send_Voltage volt s

def Detect_Voltage_Status (env : Env) (s : State) : State :=
  let s := emit (Event.call Fn.Detect_Voltage_Status) s
  let r := Get_VCC_Voltage env s
  Detect_Voltage_Status_with r.1 r.2

/-- The low-voltage-detect interrupt handler. -/
def LVD_ISR (LVDF : Nat) (s : State) : State :=
  let s := emit (Event.call Fn.LVD_ISR) s
  if s.PCON &&& LVDF ≠ 0 then
    let s := { s with voltage_low_flag := true }
    let s := { s with PCON := s.PCON &&& (0xFF ^^^ (LVDF % 0x100)) }
    UART1_Send_String "LVD Interrupt: Voltage Low\r\n" s
  else
    s

/-! ## Diagnostics -/

def Debug_Output_Status (env : Env) (s : State) : State :=
  let s := emit (Event.call Fn.Debug_Output_Status) s
  let s := UART1_Send_String "Current Status: " s
  let s := UART1_Send_String "Human:" s
  let r := HUMAN_2410S_IN env s
  let s := UART1_Send_String (if bit r.1 = 1 then "YES" else "NO") r.2
  let s := UART1_Send_String ", Phone:" s
  let r := PIR_IN env s
  let s := UART1_Send_String (if bit r.1 = 1 then "HOME" else "NOT_HOME") r.2
  let s := UART1_Send_String ", LED1:" s
  let r := Check_LED1_Status env s
  let s := UART1_Send_String (if r.1 then "ON" else "OFF") r.2
  let s := UART1_Send_String ", LED2:" s
  let r := Check_LED2_Status env s
  let s := UART1_Send_String (if r.1 then "ON" else "OFF") r.2
  let s := UART1_Send_String ", LED3:" s
  let r := Check_LED3_Status env s
  let s := UART1_Send_String (if r.1 then "ON" else "OFF") r.2
  let s := UART1_Send_String ", Relay3:" s
  let r := Check_Relay3_Status env s
  let s := UART1_Send_String (if r.1 then "ON" else "OFF") r.2
  let s := UART1_Send_String ", Voltage:" s
  let s := UART1_Send_String
    (if s.voltage_low_flag then "LOW" else if s.voltage_high_flag then "HIGH" else "NORMAL") s
  UART1_Send_String "\r\n" s

/-! ## Synchronisation rules -/

def Process_Key1_Logic (env : Env) (s : State) : State :=
  let s := emit (Event.call Fn.Process_Key1_Logic) s
  let r := HUMAN_2410S_IN env s
  let human_detected := decide (bit r.1 = 1)
  let r := Check_LED1_Status env r.2
  let led1_on := r.1
  let s := r.2
  let condition1 := human_detected && !led1_on
  let condition2 := !human_detected && led1_on
  if condition1 || condition2 then
    let s :=
      if condition1 then
        UART1_Send_String "Key1: Human detected but LED1 off -> Sending pulse\r\n" s
      else if condition2 then
        UART1_Send_String "Key1: No human but LED1 on -> Sending pulse\r\n" s
      else s
    Output_Key1_Pulse s
  else
    let s := UART1_Send_String "Key1: Conditions not met (" s
    let s := UART1_Send_String (if human_detected then "Human, " else "No human, ") s
    let s := UART1_Send_String (if led1_on then "LED1 ON" else "LED1 OFF") s
    UART1_Send_String ")\r\n" s

def Process_Key2_Logic (env : Env) (s : State) : State :=
  let s := emit (Event.call Fn.Process_Key2_Logic) s
  let r := PIR_IN env s
  let phone_home := decide (bit r.1 = 1)
  let r := Check_LED2_Status env r.2
  let led2_on := r.1
  let s := r.2
  let condition1 := phone_home && !led2_on
  let condition2 := !phone_home && led2_on
  if condition1 || condition2 then
    let s :=
      if condition1 then
        UART1_Send_String "Key2: Phone home but LED2 off -> Sending pulse\r\n" s
      else if condition2 then
        UART1_Send_String "Key2: Phone not home but LED2 on -> Sending pulse\r\n" s
      else s
    Output_Key2_Pulse s
  else
    let s := UART1_Send_String "Key2: Conditions not met (" s
    let s := UART1_Send_String (if phone_home then "Phone home, " else "Phone not home, ") s
    let s := UART1_Send_String (if led2_on then "LED2 ON" else "LED2 OFF") s
    UART1_Send_String ")\r\n" s

def Process_Key3_Logic (env : Env) (s : State) : State :=
  let s := emit (Event.call Fn.Process_Key3_Logic) s
  let r := Check_Relay3_Status env s
  let relay3_on := r.1
  let s := r.2
  let condition1 := s.voltage_low_flag && !relay3_on
  let condition2 := s.voltage_high_flag && relay3_on
  if condition1 || condition2 then
    let s :=
      if condition1 then
        UART1_Send_String "Key3: Low voltage but Relay3 off -> Sending pulse\r\n" s
      else if condition2 then
        UART1_Send_String "Key3: High voltage but Relay3 on -> Sending pulse\r\n" s
      else s
    Output_Key3_Pulse s
  else
    let s := UART1_Send_String "Key3: Conditions not met (" s
    let s := UART1_Send_String
      (if s.voltage_low_flag then "Voltage low, "
       else if s.voltage_high_flag then "Voltage high, " else "Voltage normal, ") s
    let s := UART1_Send_String (if relay3_on then "Relay3 ON" else "Relay3 OFF") s
    UART1_Send_String ")\r\n" s

/-! ## Supervisor -/

/-- Group A of `Check_State_Changes`: human presence or LED1 changed. -/
def Check_State_Changes_Key1 (env : Env) (current_human current_led1 : Nat) (s : State) :
    State :=
  if current_human ≠ s.last_human_state ∨ current_led1 ≠ s.last_led1_state then
    let s0 := s
    let s := UART1_Send_String "State change detected: " s
    let s := if current_human ≠ s0.last_human_state then UART1_Send_String "Human " s else s
    let s := if current_led1 ≠ s0.last_led1_state then UART1_Send_String "LED1 " s else s
    let s := UART1_Send_String "\r\n" s
    let s := Debug_Output_Status env s
    let s := Process_Key1_Logic env s
    let s := { s with last_human_state := current_human }
    { s with last_led1_state := current_led1 }
  else s

/-- Group B of `Check_State_Changes`: secondary presence or LED2 changed. -/
def Check_State_Changes_Key2 (env : Env) (current_pir current_led2 : Nat) (s : State) :
    State :=
  if current_pir ≠ s.last_pir_state ∨ current_led2 ≠ s.last_led2_state then
    let s0 := s
    let s := UART1_Send_String "State change detected: " s
    let s := if current_pir ≠ s0.last_pir_state then UART1_Send_String "Phone " s else s
    let s := if current_led2 ≠ s0.last_led2_state then UART1_Send_String "LED2 " s else s
    let s := UART1_Send_String "\r\n" s
    let s := Debug_Output_Status env s
    let s := Process_Key2_Logic env s
    let s := { s with last_pir_state := current_pir }
    { s with last_led2_state := current_led2 }
  else s

/-- Group C of `Check_State_Changes`: Relay3 feedback changed. -/
def Check_State_Changes_Key3 (env : Env) (current_relay3 : Nat) (s : State) : State :=
  if current_relay3 ≠ s.last_relay3_state then
    let s := UART1_Send_String "State change detected: Relay3\r\n" s
    let s := Debug_Output_Status env s
    let s := Process_Key3_Logic env s
    { s with last_relay3_state := current_relay3 }
  else s

/-- The periodic voltage check that ends `Check_State_Changes`; the counter
is a `uint16_t`. -/
def Check_State_Changes_Voltage (env : Env) (s : State) : State :=
  let s := { s with voltage_check_counter := (s.voltage_check_counter + 1) % 65536 }
  if s.voltage_check_counter ≥ 100 then
    let s := { s with voltage_check_counter := 0 }
    let s := Detect_Voltage_Status env s
    Process_Key3_Logic env s
  else s

def Check_State_Changes (env : Env) (s : State) : State :=
  let s := emit (Event.call Fn.Check_State_Changes) s
  let r := HUMAN_2410S_IN env s
  let current_human := bit r.1
  let r := PIR_IN env r.2
  let current_pir := bit r.1
  let r := Check_LED1_Status env r.2
  let current_led1 := bit r.1
  let r := Check_LED2_Status env r.2
  let current_led2 := bit r.1
  let r := Check_Relay3_Status env r.2
  let current_relay3 := bit r.1
  let s := r.2
  let s := Check_State_Changes_Key1 env current_human current_led1 s
  let s := Check_State_Changes_Key2 env current_pir current_led2 s
  let s := Check_State_Changes_Key3 env current_relay3 s
  Check_State_Changes_Voltage env s

/-- The state of `Check_State_Changes` once the five current values have been
sampled. -/
def Check_State_Changes_sampled (s : State) : State :=
  { s with reads := s.reads + 5, trace := s.trace ++ [Event.call Fn.Check_State_Changes] }

/-- The state of `Check_State_Changes` after its first `if` (group A). -/
def Check_State_Changes_afterKey1 (env : Env) (s : State) : State :=
  Check_State_Changes_Key1 env (bit (env.pins s.reads).P32) (bit (env.pins (s.reads + 2)).P34)
    (Check_State_Changes_sampled s)

/-- The state of `Check_State_Changes` after its second `if` (group B). -/
def Check_State_Changes_afterKey2 (env : Env) (s : State) : State :=
  Check_State_Changes_Key2 env (bit (env.pins (s.reads + 1)).P33)
    (bit (env.pins (s.reads + 3)).P35) (Check_State_Changes_afterKey1 env s)

/-- The state of `Check_State_Changes` after its third `if` (group C), before
the periodic voltage check. -/
def Check_State_Changes_afterKey3 (env : Env) (s : State) : State :=
  Check_State_Changes_Key3 env (bit (env.pins (s.reads + 4)).P14)
    (Check_State_Changes_afterKey2 env s)

/-- All three key lines are at 1. -/
def keyLinesHigh (s : State) : Bool :=
  s.KEY1_OUT && s.KEY2_OUT && s.KEY3_OUT

/-! ## Watchdog and initialisation -/

def WDT_Init (s : State) : State :=
  let s := emit (Event.call Fn.WDT_Init) s
  let s := { s with WDT_CONTR := WDT_CONFIG }
  let s := Delay_ms 10 s
  UART1_Send_String "Watchdog Enabled (8s timeout)\r\n" s

def WDT_Feed (s : State) : State :=
  let s := emit (Event.call Fn.WDT_Feed) s
  { s with WDT_CONTR := (WDT_CONFIG ||| 0x10) % 256 }

def UART1_Init (s : State) : State :=
  emit (Event.call Fn.UART1_Init) s

def System_Init (s : State) : State :=
  let s := emit (Event.call Fn.System_Init) s
  let s := setLine Line.POWER_CTRL (decide (POWER_CTRL_MODE ≠ 0)) s
  let s := setLine Line.KEY1_OUT true s
  let s := setLine Line.KEY2_OUT true s
  setLine Line.KEY3_OUT true s

def LVD_ADC_Init (LVDF : Nat) (s : State) : State :=
  let s := emit (Event.call Fn.LVD_ADC_Init) s
  let s := Delay_ms 2 s
  { s with PCON := s.PCON &&& (0xFF ^^^ (LVDF % 0x100)) }

/-! ## `main` -/

/-- The part of `main` up to and including the `Detect_Voltage_Status` call
and the diagnostic voltage print. -/
def main_init (LVDF : Nat) (env : Env) (s : State) : State :=
  let s := System_Init s
  let s := LVD_ADC_Init LVDF s
  let s := WDT_Init s
  let s := UART1_Init s
  let s := UART1_Send_String "System Initialized\r\n" s
  let s := setLine Line.POWER_CTRL (decide (POWER_CTRL_MODE ≠ 0)) s
  let s := Delay_ms DELAY_0_5S s
  let s := Detect_Voltage_Status env s
  let r := Get_VCC_Voltage env s
  UART1_Send_Voltage r.1 r.2

/-- Seeding of the previous-state snapshot in `main`. -/
def main_seed (env : Env) (s : State) : State :=
  let r := HUMAN_2410S_IN env s
  let s := { r.2 with last_human_state := bit r.1 }
  let r := PIR_IN env s
  let s := { r.2 with last_pir_state := bit r.1 }
  let r := Check_LED1_Status env s
  let s := { r.2 with last_led1_state := bit r.1 }
  let r := Check_LED2_Status env s
  let s := { r.2 with last_led2_state := bit r.1 }
  let r := Check_Relay3_Status env s
  { r.2 with last_relay3_state := bit r.1 }

/-- The first, unconditional evaluation of the three rules in `main`. -/
def main_first_logic (env : Env) (s : State) : State :=
  let s := Process_Key1_Logic env s
  let s := Process_Key2_Logic env s
  Process_Key3_Logic env s

/-- Everything `main` does before entering `while(1)`. -/
def main_startup (LVDF : Nat) (env : Env) (s : State) : State :=
  let s := main_init LVDF env s
  let s := main_seed env s
  main_first_logic env s

/-- One iteration of the body of `while(1)`. -/
def main_iteration (env : Env) (s : State) : State :=
  let s := Check_State_Changes env s
  let s := WDT_Feed s
  Delay_ms DELAY_10MS s

/-- The first `n` iterations of `while(1)`. -/
def main_loop (env : Env) : Nat → State → State
  | 0, s => s
  | n + 1, s => main_loop env n (main_iteration env s)

/-- Repeated calls: `n` consecutive calls of `Check_State_Changes`. -/
def Check_State_Changes_times (env : Env) : Nat → State → State
  | 0, s => s
  | n + 1, s => Check_State_Changes env (Check_State_Changes_times env n s)

/-! ## Sample inputs -/

/-- All input pins low. -/
def Pins.idle : Pins :=
  { P32 := false, P33 := false, P34 := false, P35 := false, P13 := false, P14 := false }

/-- An environment with all input pins held low and every conversion giving
the raw value `0x600` (3173 mV). -/
def Env.idle : Env :=
  { pins := fun _ => Pins.idle, ADC_RES := fun _ => 0x60, ADC_RESL := fun _ => 0 }

/-- An environment with the input pins held at `p`; the ADC result registers
follow `res` and `resl`. -/
def Env.const (p : Pins) (res resl : Nat → Nat) : Env :=
  { pins := fun _ => p, ADC_RES := res, ADC_RESL := resl }

/-! ## Reading the trace -/

/-- The events appended between an earlier state and a later one. -/
def eventsOf (s s1 : State) : List Event :=
  s1.trace.drop s.trace.length

/-- How often function `f` was entered in a trace. -/
def calls (f : Fn) (tr : List Event) : Nat :=
  tr.count (Event.call f)

/-- The events visible on the output lines: writes and busy-wait delays. -/
def outputs (tr : List Event) : List Event :=
  tr.filter (fun e =>
    match e with
    | Event.write _ _ => true
    | Event.delay _ => true
    | _ => false)

/-- The writes to output lines in a trace. -/
def writes (tr : List Event) : List Event :=
  tr.filter (fun e =>
    match e with
    | Event.write _ _ => true
    | _ => false)

/-- The shape of one pulse on line `l`: low, 50 ms, high. -/
def pulse (l : Line) : List Event :=
  [Event.write l false, Event.delay DELAY_0_05S, Event.write l true]

/-- Number of low phases started on line `l`. -/
def pulsesOn (l : Line) (tr : List Event) : Nat :=
  tr.count (Event.write l false)

/-- The trace without its UART events: call markers, writes and delays. -/
def core (tr : List Event) : List Event :=
  tr.filter (fun e =>
    match e with
    | Event.uart _ => false
    | _ => true)

/-- What one evaluation of a rule leaves in the trace, UART events apart:
the marker of the rule function `f`, and when the rule fires the marker of
its emitter `o` followed by the pulse on line `l`. -/
def ruleCore (f o : Fn) (l : Line) (fires : Bool) : List Event :=
  Event.call f :: (if fires then Event.call o :: pulse l else [])


/-! ## Reading the trace: basic facts -/

/-- A state whose trace extends the trace of `s` by `l` has `l` as its events since `s`. -/
theorem eventsOf_append (s s1 : State) (l : List Event) (h : s1.trace = s.trace ++ l) :
    eventsOf s s1 = l := by
  simp [eventsOf, h]

theorem core_append (a b : List Event) : core (a ++ b) = core a ++ core b := by
  simp [core]

theorem core_cons_uart (str : String) (l : List Event) :
    core (Event.uart str :: l) = core l := by
  simp [core]

theorem calls_append (g : Fn) (a b : List Event) : calls g (a ++ b) = calls g a + calls g b := by
  simp [calls]

theorem calls_core (g : Fn) (tr : List Event) : calls g (core tr) = calls g tr := by
  induction tr with
  | nil => rfl
  | cons e tr ih =>
    cases e <;> simp_all [calls, core, List.filter_cons, List.count_cons]

theorem writes_core (tr : List Event) : writes (core tr) = writes tr := by
  induction tr with
  | nil => rfl
  | cons e tr ih =>
    cases e <;> simp_all [writes, core, List.filter_cons]

theorem outputs_core (tr : List Event) : outputs (core tr) = outputs tr := by
  induction tr with
  | nil => rfl
  | cons e tr ih =>
    cases e <;> simp_all [outputs, core, List.filter_cons]


theorem calls_ruleCore (g f o : Fn) (l : Line) (b : Bool) :
    calls g (ruleCore f o l b) =
      (if f = g then 1 else 0) + (if b = true ∧ o = g then 1 else 0) := by
  cases b <;> simp [calls, ruleCore, pulse, List.count_cons, Nat.add_comm]

theorem calls_nil (g : Fn) : calls g [] = 0 := rfl

theorem calls_cons_delay (g : Fn) (ms : Nat) (l : List Event) :
    calls g (Event.delay ms :: l) = calls g l := by
  simp [calls, List.count_cons]

theorem calls_cons_write (g : Fn) (x : Line) (v : Bool) (l : List Event) :
    calls g (Event.write x v :: l) = calls g l := by
  simp [calls, List.count_cons]

theorem calls_cons_call (g f : Fn) (l : List Event) :
    calls g (Event.call f :: l) = (if f = g then 1 else 0) + calls g l := by
  simp [calls, List.count_cons, Nat.add_comm]

theorem pulsesOn_core (l : Line) (tr : List Event) : pulsesOn l (core tr) = pulsesOn l tr := by
  induction tr with
  | nil => rfl
  | cons e tr ih =>
    cases e <;> simp_all [pulsesOn, core, List.filter_cons, List.count_cons]

theorem pulsesOn_append (l : Line) (a b : List Event) :
    pulsesOn l (a ++ b) = pulsesOn l a + pulsesOn l b := by
  simp [pulsesOn]

theorem outputs_append (a b : List Event) : outputs (a ++ b) = outputs a ++ outputs b := by
  simp [outputs]

theorem Env.const_pins (p : Pins) (res resl : Nat → Nat) (i : Nat) :
    (Env.const p res resl).pins i = p := rfl

theorem pulsesOn_ruleCore (x : Line) (f o : Fn) (l : Line) (b : Bool) :
    pulsesOn x (ruleCore f o l b) = if b = true ∧ l = x then 1 else 0 := by
  cases b <;> simp [pulsesOn, ruleCore, pulse, List.count_cons]

theorem outputs_ruleCore (f o : Fn) (l : Line) (b : Bool) :
    outputs (ruleCore f o l b) = if b = true then pulse l else [] := by
  cases b <;> simp [outputs, ruleCore, pulse]

/-! ## The effect of each function -/

/-- The whole effect of `Output_Key1_Pulse`. -/
theorem Output_Key1_Pulse_eq (s : State) :
    Output_Key1_Pulse s =
      { s with KEY1_OUT := true,
               trace := s.trace ++ Event.call Fn.Output_Key1_Pulse :: pulse Line.KEY1_OUT } := by
  simp [Output_Key1_Pulse, setLine, emit, Delay_ms, pulse]

/-- The whole effect of `Process_Key1_Logic`: two pin reads, and the pulse on Key1
when the two samples differ. -/
theorem Process_Key1_Logic_spec (env : Env) (s : State) :
    ∃ u, Process_Key1_Logic env s =
        { s with KEY1_OUT :=
                   (if (env.pins s.reads).P32 != (env.pins (s.reads + 1)).P34 then true
                    else s.KEY1_OUT),
                 reads := s.reads + 2,
                 trace := s.trace ++ u } ∧
      core u = ruleCore Fn.Process_Key1_Logic Fn.Output_Key1_Pulse Line.KEY1_OUT
        ((env.pins s.reads).P32 != (env.pins (s.reads + 1)).P34) := by
  simp only [Process_Key1_Logic, Output_Key1_Pulse_eq]
  simp [HUMAN_2410S_IN, Check_LED1_Status, LED1_STATUS, readPin, emit,
      UART1_Send_String, bit, LED1_ON_LEVEL, Nat.add_assoc]
  cases (env.pins s.reads).P32 <;> cases (env.pins (s.reads + 1)).P34 <;>
    simp [core, ruleCore, pulse]

/-- The whole effect of `Output_Key2_Pulse`. -/
theorem Output_Key2_Pulse_eq (s : State) :
    Output_Key2_Pulse s =
      { s with KEY2_OUT := true,
               trace := s.trace ++ Event.call Fn.Output_Key2_Pulse :: pulse Line.KEY2_OUT } := by
  simp [Output_Key2_Pulse, setLine, emit, Delay_ms, pulse]

/-- The whole effect of `Process_Key2_Logic`: two pin reads, and the pulse on Key2
when the two samples differ. -/
theorem Process_Key2_Logic_spec (env : Env) (s : State) :
    ∃ u, Process_Key2_Logic env s =
        { s with KEY2_OUT :=
                   (if (env.pins s.reads).P33 != (env.pins (s.reads + 1)).P35 then true
                    else s.KEY2_OUT),
                 reads := s.reads + 2,
                 trace := s.trace ++ u } ∧
      core u = ruleCore Fn.Process_Key2_Logic Fn.Output_Key2_Pulse Line.KEY2_OUT
        ((env.pins s.reads).P33 != (env.pins (s.reads + 1)).P35) := by
  simp only [Process_Key2_Logic, Output_Key2_Pulse_eq]
  simp [PIR_IN, Check_LED2_Status, LED2_STATUS, readPin, emit,
      UART1_Send_String, bit, LED2_ON_LEVEL, Nat.add_assoc]
  cases (env.pins s.reads).P33 <;> cases (env.pins (s.reads + 1)).P35 <;>
    simp [core, ruleCore, pulse]


/-- The whole effect of `Output_Key3_Pulse`. -/
theorem Output_Key3_Pulse_eq (s : State) :
    Output_Key3_Pulse s =
      { s with KEY3_OUT := true,
               trace := s.trace ++ Event.call Fn.Output_Key3_Pulse :: pulse Line.KEY3_OUT } := by
  simp [Output_Key3_Pulse, setLine, emit, Delay_ms, pulse]

/-- The whole effect of `Process_Key3_Logic`: one pin read, and the pulse on Key3
when `voltage_low_flag` holds with the relay not open or `voltage_high_flag`
holds with the relay open. -/
theorem Process_Key3_Logic_spec (env : Env) (s : State) :
    ∃ u, Process_Key3_Logic env s =
        { s with KEY3_OUT :=
                   (if (s.voltage_low_flag && !(env.pins s.reads).P14) ||
                       (s.voltage_high_flag && (env.pins s.reads).P14) then true
                    else s.KEY3_OUT),
                 reads := s.reads + 1,
                 trace := s.trace ++ u } ∧
      core u = ruleCore Fn.Process_Key3_Logic Fn.Output_Key3_Pulse Line.KEY3_OUT
        ((s.voltage_low_flag && !(env.pins s.reads).P14) ||
          (s.voltage_high_flag && (env.pins s.reads).P14)) := by
  simp only [Process_Key3_Logic, Output_Key3_Pulse_eq]
  simp [Check_Relay3_Status, RELAY3_FEEDBACK, readPin, emit,
      UART1_Send_String, bit, RELAY3_OPEN_LEVEL, Nat.add_assoc]
  cases (env.pins s.reads).P14 <;> cases s.voltage_low_flag <;> cases s.voltage_high_flag <;>
    simp [core, ruleCore, pulse]

/-- The body of `Get_VCC_Voltage` is always defined, and the function returns
its result. -/
theorem Get_VCC_Voltage_checked_eq (env : Env) (s : State) :
    Get_VCC_Voltage_checked env s = some (Get_VCC_Voltage env s) := by
  simp [Get_VCC_Voltage]

/-- The whole effect of `Get_VCC_Voltage`, in terms of the assembled raw
value: the guarded quotient truncated to 16 bits, and one conversion
consumed. -/
theorem Get_VCC_Voltage_eq (env : Env) (s : State) :
    Get_VCC_Voltage env s =
      ((if adc_val env s.conversions ≠ 0 then
          ((REF_VOLTAGE * 4096) % 4294967296 / adc_val env s.conversions) % 65536
        else 0),
       { s with conversions := s.conversions + 1,
                trace := s.trace ++ [Event.call Fn.Get_VCC_Voltage] }) := by
  apply Option.some.inj
  rw [← Get_VCC_Voltage_checked_eq]
  simp only [Get_VCC_Voltage_checked, udiv, adc_val, emit]
  split_ifs <;> simp_all

/-- The value returned by `Get_VCC_Voltage`, in terms of the assembled raw
value: the guarded quotient, truncated to 16 bits. -/
theorem Get_VCC_Voltage_fst (env : Env) (s : State) :
    (Get_VCC_Voltage env s).1 =
      if adc_val env s.conversions ≠ 0 then
        ((REF_VOLTAGE * 4096) % 4294967296 / adc_val env s.conversions) % 65536
      else 0 := by
  rw [Get_VCC_Voltage_eq]

/-- The state after `Get_VCC_Voltage`: one conversion consumed. -/
theorem Get_VCC_Voltage_snd (env : Env) (s : State) :
    (Get_VCC_Voltage env s).2 =
      { s with conversions := s.conversions + 1,
               trace := s.trace ++ [Event.call Fn.Get_VCC_Voltage] } := by
  rw [Get_VCC_Voltage_eq]

/-- The reading depends on the state only through the conversion cursor. -/
theorem Get_VCC_Voltage_fst_congr (env : Env) (s s1 : State)
    (h : s1.conversions = s.conversions) :
    (Get_VCC_Voltage env s1).1 = (Get_VCC_Voltage env s).1 := by
  rw [Get_VCC_Voltage_fst, Get_VCC_Voltage_fst, h]

/-- The whole effect of `Detect_Voltage_Status`. -/
theorem Detect_Voltage_Status_spec (env : Env) (s : State) :
    ∃ u, Detect_Voltage_Status env s =
        { s with voltage_low_flag := decide ((Get_VCC_Voltage env s).1 < VOLTAGE_THRESHOLD),
                 voltage_high_flag := !decide ((Get_VCC_Voltage env s).1 < VOLTAGE_THRESHOLD),
                 conversions := s.conversions + 1,
                 trace := s.trace ++ u } ∧
      core u = [Event.call Fn.Detect_Voltage_Status, Event.call Fn.Get_VCC_Voltage] := by
  have hv : (Get_VCC_Voltage env (emit (Event.call Fn.Detect_Voltage_Status) s)).1 =
      (Get_VCC_Voltage env s).1 := Get_VCC_Voltage_fst_congr env s _ rfl
  simp only [Detect_Voltage_Status, Get_VCC_Voltage_snd, hv, Detect_Voltage_Status_with]
  by_cases h : (Get_VCC_Voltage env s).1 < VOLTAGE_THRESHOLD <;>
    simp [h, emit, UART1_Send_String, UART1_Send_Voltage, core]

/-- The whole effect of `Debug_Output_Status`: six pin reads and UART text. -/
theorem Debug_Output_Status_spec (env : Env) (s : State) :
    ∃ u, Debug_Output_Status env s = { s with reads := s.reads + 6, trace := s.trace ++ u } ∧
      core u = [Event.call Fn.Debug_Output_Status] := by
  simp [Debug_Output_Status, HUMAN_2410S_IN, PIR_IN, Check_LED1_Status, LED1_STATUS,
      Check_LED2_Status, LED2_STATUS, Check_LED3_Status, LED3_STATUS, Check_Relay3_Status,
      RELAY3_FEEDBACK, readPin, emit, UART1_Send_String, Nat.add_assoc, core]


/-- Group A does nothing when neither value differs from the snapshot. -/
theorem Check_State_Changes_Key1_same (env : Env) (a b : Nat) (s : State)
    (ha : a = s.last_human_state) (hb : b = s.last_led1_state) :
    Check_State_Changes_Key1 env a b s = s := by
  simp [Check_State_Changes_Key1, ha, hb]

/-- Group A when a value differs: diagnostics, rule 1, then the snapshot update. -/
theorem Check_State_Changes_Key1_changed (env : Env) (a b : Nat) (s : State)
    (h : a ≠ s.last_human_state ∨ b ≠ s.last_led1_state) :
    ∃ u, Check_State_Changes_Key1 env a b s =
        { s with last_human_state := a,
                 last_led1_state := b,
                 KEY1_OUT :=
                   (if (env.pins (s.reads + 6)).P32 != (env.pins (s.reads + 7)).P34 then true
                    else s.KEY1_OUT),
                 reads := s.reads + 8,
                 trace := s.trace ++ u } ∧
      core u = Event.call Fn.Debug_Output_Status ::
        ruleCore Fn.Process_Key1_Logic Fn.Output_Key1_Pulse Line.KEY1_OUT
          ((env.pins (s.reads + 6)).P32 != (env.pins (s.reads + 7)).P34) := by
  simp only [Check_State_Changes_Key1, if_pos h]
  generalize hs1 : UART1_Send_String "\r\n" _ = s1
  have h1 : ∃ v, s1 = { s with trace := s.trace ++ v } ∧ core v = [] := by
    subst hs1
    by_cases c1 : a ≠ s.last_human_state <;> by_cases c2 : b ≠ s.last_led1_state <;>
      simp [c1, c2, UART1_Send_String, emit, core]
  obtain ⟨v, rfl, hv⟩ := h1
  obtain ⟨w, hw, hcw⟩ := Debug_Output_Status_spec env { s with trace := s.trace ++ v }
  obtain ⟨x, hx, hcx⟩ := Process_Key1_Logic_spec env
    (Debug_Output_Status env { s with trace := s.trace ++ v })
  refine ⟨v ++ w ++ x, ?_, ?_⟩
  · rw [hx, hw]
    simp [Nat.add_assoc]
  · rw [hw] at hcx
    simp [core_append, hv, hcw, hcx, Nat.add_assoc]

/-- Group B does nothing when neither value differs from the snapshot. -/
theorem Check_State_Changes_Key2_same (env : Env) (a b : Nat) (s : State)
    (ha : a = s.last_pir_state) (hb : b = s.last_led2_state) :
    Check_State_Changes_Key2 env a b s = s := by
  simp [Check_State_Changes_Key2, ha, hb]

/-- Group B when a value differs: diagnostics, rule 2, then the snapshot update. -/
theorem Check_State_Changes_Key2_changed (env : Env) (a b : Nat) (s : State)
    (h : a ≠ s.last_pir_state ∨ b ≠ s.last_led2_state) :
    ∃ u, Check_State_Changes_Key2 env a b s =
        { s with last_pir_state := a,
                 last_led2_state := b,
                 KEY2_OUT :=
                   (if (env.pins (s.reads + 6)).P33 != (env.pins (s.reads + 7)).P35 then true
                    else s.KEY2_OUT),
                 reads := s.reads + 8,
                 trace := s.trace ++ u } ∧
      core u = Event.call Fn.Debug_Output_Status ::
        ruleCore Fn.Process_Key2_Logic Fn.Output_Key2_Pulse Line.KEY2_OUT
          ((env.pins (s.reads + 6)).P33 != (env.pins (s.reads + 7)).P35) := by
  simp only [Check_State_Changes_Key2, if_pos h]
  generalize hs1 : UART1_Send_String "\r\n" _ = s1
  have h1 : ∃ v, s1 = { s with trace := s.trace ++ v } ∧ core v = [] := by
    subst hs1
    by_cases c1 : a ≠ s.last_pir_state <;> by_cases c2 : b ≠ s.last_led2_state <;>
      simp [c1, c2, UART1_Send_String, emit, core]
  obtain ⟨v, rfl, hv⟩ := h1
  obtain ⟨w, hw, hcw⟩ := Debug_Output_Status_spec env { s with trace := s.trace ++ v }
  obtain ⟨x, hx, hcx⟩ := Process_Key2_Logic_spec env
    (Debug_Output_Status env { s with trace := s.trace ++ v })
  refine ⟨v ++ w ++ x, ?_, ?_⟩
  · rw [hx, hw]
    simp [Nat.add_assoc]
  · rw [hw] at hcx
    simp [core_append, hv, hcw, hcx, Nat.add_assoc]

/-- Group C does nothing when the value equals the snapshot. -/
theorem Check_State_Changes_Key3_same (env : Env) (a : Nat) (s : State)
    (ha : a = s.last_relay3_state) :
    Check_State_Changes_Key3 env a s = s := by
  simp [Check_State_Changes_Key3, ha]

/-- Group C when the value differs: diagnostics, rule 3, then the snapshot update. -/
theorem Check_State_Changes_Key3_changed (env : Env) (a : Nat) (s : State)
    (h : a ≠ s.last_relay3_state) :
    ∃ u, Check_State_Changes_Key3 env a s =
        { s with last_relay3_state := a,
                 KEY3_OUT :=
                   (if (s.voltage_low_flag && !(env.pins (s.reads + 6)).P14) ||
                       (s.voltage_high_flag && (env.pins (s.reads + 6)).P14) then true
                    else s.KEY3_OUT),
                 reads := s.reads + 7,
                 trace := s.trace ++ u } ∧
      core u = Event.call Fn.Debug_Output_Status ::
        ruleCore Fn.Process_Key3_Logic Fn.Output_Key3_Pulse Line.KEY3_OUT
          ((s.voltage_low_flag && !(env.pins (s.reads + 6)).P14) ||
            (s.voltage_high_flag && (env.pins (s.reads + 6)).P14)) := by
  simp only [Check_State_Changes_Key3, if_pos h]
  obtain ⟨w, hw, hcw⟩ := Debug_Output_Status_spec env
    (UART1_Send_String "State change detected: Relay3\r\n" s)
  obtain ⟨x, hx, hcx⟩ := Process_Key3_Logic_spec env
    (Debug_Output_Status env (UART1_Send_String "State change detected: Relay3\r\n" s))
  refine ⟨[Event.uart "State change detected: Relay3\r\n"] ++ w ++ x, ?_, ?_⟩
  · rw [hx, hw]
    simp [UART1_Send_String, emit, Nat.add_assoc]
  · rw [hw] at hcx
    simp [UART1_Send_String, emit] at hcx
    simp [core_append, core_cons_uart, hcw, hcx, Nat.add_assoc]

/-- The periodic check when the incremented counter is below 100. -/
theorem Check_State_Changes_Voltage_skip (env : Env) (s : State)
    (h : (s.voltage_check_counter + 1) % 65536 < 100) :
    Check_State_Changes_Voltage env s =
      { s with voltage_check_counter := (s.voltage_check_counter + 1) % 65536 } := by
  simp [Check_State_Changes_Voltage, h]

/-- The periodic check when the incremented counter reaches 100. -/
theorem Check_State_Changes_Voltage_run (env : Env) (s : State)
    (h : 100 ≤ (s.voltage_check_counter + 1) % 65536) :
    ∃ u, Check_State_Changes_Voltage env s =
        { s with voltage_low_flag := decide ((Get_VCC_Voltage env s).1 < VOLTAGE_THRESHOLD),
                 voltage_high_flag := !decide ((Get_VCC_Voltage env s).1 < VOLTAGE_THRESHOLD),
                 voltage_check_counter := 0,
                 KEY3_OUT :=
                   (if (decide ((Get_VCC_Voltage env s).1 < VOLTAGE_THRESHOLD) &&
                          !(env.pins s.reads).P14) ||
                       (!decide ((Get_VCC_Voltage env s).1 < VOLTAGE_THRESHOLD) &&
                          (env.pins s.reads).P14) then true
                    else s.KEY3_OUT),
                 reads := s.reads + 1,
                 conversions := s.conversions + 1,
                 trace := s.trace ++ u } ∧
      core u = Event.call Fn.Detect_Voltage_Status :: Event.call Fn.Get_VCC_Voltage ::
        ruleCore Fn.Process_Key3_Logic Fn.Output_Key3_Pulse Line.KEY3_OUT
          ((decide ((Get_VCC_Voltage env s).1 < VOLTAGE_THRESHOLD) && !(env.pins s.reads).P14) ||
            (!decide ((Get_VCC_Voltage env s).1 < VOLTAGE_THRESHOLD) &&
              (env.pins s.reads).P14)) := by
  have hn : ¬ (s.voltage_check_counter + 1) % 65536 < 100 := by omega
  have hv : (Get_VCC_Voltage env { s with voltage_check_counter := 0 }).1 =
      (Get_VCC_Voltage env s).1 := Get_VCC_Voltage_fst_congr env s _ rfl
  obtain ⟨w, hw, hcw⟩ := Detect_Voltage_Status_spec env { s with voltage_check_counter := 0 }
  obtain ⟨x, hx, hcx⟩ := Process_Key3_Logic_spec env
    (Detect_Voltage_Status env { s with voltage_check_counter := 0 })
  refine ⟨w ++ x, ?_, ?_⟩
  · simp only [Check_State_Changes_Voltage]
    simp only [ge_iff_le, h, if_true]
    rw [hx, hw, hv]
    simp
  · rw [hw, hv] at hcx
    simp [core_append, hcw, hcx]

/-- `Check_State_Changes` as the five samples followed by its four stages. -/
theorem Check_State_Changes_unfold (env : Env) (s : State) :
    Check_State_Changes env s =
      Check_State_Changes_Voltage env
        (Check_State_Changes_Key3 env (bit (env.pins (s.reads + 4)).P14)
          (Check_State_Changes_Key2 env (bit (env.pins (s.reads + 1)).P33)
              (bit (env.pins (s.reads + 3)).P35)
            (Check_State_Changes_Key1 env (bit (env.pins s.reads).P32)
                (bit (env.pins (s.reads + 2)).P34)
              { s with reads := s.reads + 5,
                       trace := s.trace ++ [Event.call Fn.Check_State_Changes] }))) := by
  simp [Check_State_Changes, HUMAN_2410S_IN, PIR_IN, Check_LED1_Status, LED1_STATUS,
    Check_LED2_Status, LED2_STATUS, Check_Relay3_Status, RELAY3_FEEDBACK, readPin, emit,
    Nat.add_assoc, LED1_ON_LEVEL, LED2_ON_LEVEL, RELAY3_OPEN_LEVEL]
  cases (env.pins (s.reads + 4)).P14 <;> cases (env.pins (s.reads + 2)).P34 <;>
    cases (env.pins (s.reads + 3)).P35 <;> simp [bit]


/-- Group A in both cases; `f` tells whether rule 1 fired. -/
theorem Check_State_Changes_Key1_spec (env : Env) (a b : Nat) (s : State) :
    ∃ (f : Bool) (u : List Event) (k : Nat),
      Check_State_Changes_Key1 env a b s =
        { s with last_human_state := a,
                 last_led1_state := b,
                 KEY1_OUT := (if f then true else s.KEY1_OUT),
                 reads := s.reads + k,
                 trace := s.trace ++ u } ∧
      core u =
        (if a ≠ s.last_human_state ∨ b ≠ s.last_led1_state then
          Event.call Fn.Debug_Output_Status ::
            ruleCore Fn.Process_Key1_Logic Fn.Output_Key1_Pulse Line.KEY1_OUT f
         else []) ∧
      (f = true → a ≠ s.last_human_state ∨ b ≠ s.last_led1_state) := by
  by_cases h : a ≠ s.last_human_state ∨ b ≠ s.last_led1_state
  · obtain ⟨u, hu, hc⟩ := Check_State_Changes_Key1_changed env a b s h
    exact ⟨_, u, 8, hu, by simp [h, hc], fun _ => h⟩
  · have ha : a = s.last_human_state := by
      by_contra hne
      exact h (Or.inl hne)
    have hb : b = s.last_led1_state := by
      by_contra hne
      exact h (Or.inr hne)
    refine ⟨false, [], 0, ?_, by simp [h, core], by simp⟩
    rw [Check_State_Changes_Key1_same env a b s ha hb]
    simp [ha, hb]

/-- Group B in both cases; `f` tells whether rule 2 fired. -/
theorem Check_State_Changes_Key2_spec (env : Env) (a b : Nat) (s : State) :
    ∃ (f : Bool) (u : List Event) (k : Nat),
      Check_State_Changes_Key2 env a b s =
        { s with last_pir_state := a,
                 last_led2_state := b,
                 KEY2_OUT := (if f then true else s.KEY2_OUT),
                 reads := s.reads + k,
                 trace := s.trace ++ u } ∧
      core u =
        (if a ≠ s.last_pir_state ∨ b ≠ s.last_led2_state then
          Event.call Fn.Debug_Output_Status ::
            ruleCore Fn.Process_Key2_Logic Fn.Output_Key2_Pulse Line.KEY2_OUT f
         else []) ∧
      (f = true → a ≠ s.last_pir_state ∨ b ≠ s.last_led2_state) := by
  by_cases h : a ≠ s.last_pir_state ∨ b ≠ s.last_led2_state
  · obtain ⟨u, hu, hc⟩ := Check_State_Changes_Key2_changed env a b s h
    exact ⟨_, u, 8, hu, by simp [h, hc], fun _ => h⟩
  · have ha : a = s.last_pir_state := by
      by_contra hne
      exact h (Or.inl hne)
    have hb : b = s.last_led2_state := by
      by_contra hne
      exact h (Or.inr hne)
    refine ⟨false, [], 0, ?_, by simp [h, core], by simp⟩
    rw [Check_State_Changes_Key2_same env a b s ha hb]
    simp [ha, hb]

/-- Group C in both cases; `f` tells whether rule 3 fired. -/
theorem Check_State_Changes_Key3_spec (env : Env) (a : Nat) (s : State) :
    ∃ (f : Bool) (u : List Event) (k : Nat),
      Check_State_Changes_Key3 env a s =
        { s with last_relay3_state := a,
                 KEY3_OUT := (if f then true else s.KEY3_OUT),
                 reads := s.reads + k,
                 trace := s.trace ++ u } ∧
      core u =
        (if a ≠ s.last_relay3_state then
          Event.call Fn.Debug_Output_Status ::
            ruleCore Fn.Process_Key3_Logic Fn.Output_Key3_Pulse Line.KEY3_OUT f
         else []) ∧
      (f = true → a ≠ s.last_relay3_state) := by
  by_cases h : a ≠ s.last_relay3_state
  · obtain ⟨u, hu, hc⟩ := Check_State_Changes_Key3_changed env a s h
    exact ⟨_, u, 7, hu, by simp [h, hc], fun _ => h⟩
  · have ha : a = s.last_relay3_state := by
      by_contra hne
      exact h hne
    refine ⟨false, [], 0, ?_, by simp [h, core], by simp⟩
    rw [Check_State_Changes_Key3_same env a s ha]
    simp [ha]

/-- The periodic check in both cases; `f` tells whether rule 3 fired. -/
theorem Check_State_Changes_Voltage_spec (env : Env) (s : State) :
    ∃ (f : Bool) (u : List Event) (k : Nat),
      Check_State_Changes_Voltage env s =
        { s with voltage_low_flag :=
                   (if 100 ≤ (s.voltage_check_counter + 1) % 65536 then
                      decide ((Get_VCC_Voltage env s).1 < VOLTAGE_THRESHOLD)
                    else s.voltage_low_flag),
                 voltage_high_flag :=
                   (if 100 ≤ (s.voltage_check_counter + 1) % 65536 then
                      !decide ((Get_VCC_Voltage env s).1 < VOLTAGE_THRESHOLD)
                    else s.voltage_high_flag),
                 voltage_check_counter :=
                   (if 100 ≤ (s.voltage_check_counter + 1) % 65536 then 0
                    else (s.voltage_check_counter + 1) % 65536),
                 KEY3_OUT := (if f then true else s.KEY3_OUT),
                 reads := s.reads + k,
                 conversions :=
                   s.conversions + (if 100 ≤ (s.voltage_check_counter + 1) % 65536 then 1 else 0),
                 trace := s.trace ++ u } ∧
      core u =
        (if 100 ≤ (s.voltage_check_counter + 1) % 65536 then
          Event.call Fn.Detect_Voltage_Status :: Event.call Fn.Get_VCC_Voltage ::
            ruleCore Fn.Process_Key3_Logic Fn.Output_Key3_Pulse Line.KEY3_OUT f
         else []) ∧
      (f = true → 100 ≤ (s.voltage_check_counter + 1) % 65536) := by
  by_cases h : 100 ≤ (s.voltage_check_counter + 1) % 65536
  · obtain ⟨u, hu, hc⟩ := Check_State_Changes_Voltage_run env s h
    refine ⟨(decide ((Get_VCC_Voltage env s).1 < VOLTAGE_THRESHOLD) && !(env.pins s.reads).P14) ||
        (!decide ((Get_VCC_Voltage env s).1 < VOLTAGE_THRESHOLD) && (env.pins s.reads).P14),
      u, 1, ?_, ?_, fun _ => h⟩
    · rw [hu]
      simp only [if_pos h]
    · simp only [if_pos h, hc]
  · refine ⟨false, [], 0, ?_, by simp [h, core], by simp⟩
    rw [Check_State_Changes_Voltage_skip env s (by omega)]
    simp [h]


/-- The whole effect of one `Check_State_Changes`: the resulting state and its
trace contribution (UART events apart); `f1` .. `f4` tell which rule
evaluations fired. -/
theorem Check_State_Changes_spec (env : Env) (s : State) :
    ∃ (f1 f2 f3 f4 : Bool) (u : List Event) (k : Nat),
      Check_State_Changes env s =
        { s with voltage_low_flag :=
                   (if 100 ≤ (s.voltage_check_counter + 1) % 65536 then
                      decide ((Get_VCC_Voltage env s).1 < VOLTAGE_THRESHOLD)
                    else s.voltage_low_flag),
                 voltage_high_flag :=
                   (if 100 ≤ (s.voltage_check_counter + 1) % 65536 then
                      !decide ((Get_VCC_Voltage env s).1 < VOLTAGE_THRESHOLD)
                    else s.voltage_high_flag),
                 last_human_state := bit (env.pins s.reads).P32,
                 last_pir_state := bit (env.pins (s.reads + 1)).P33,
                 last_led1_state := bit (env.pins (s.reads + 2)).P34,
                 last_led2_state := bit (env.pins (s.reads + 3)).P35,
                 last_relay3_state := bit (env.pins (s.reads + 4)).P14,
                 KEY1_OUT := (if f1 then true else s.KEY1_OUT),
                 KEY2_OUT := (if f2 then true else s.KEY2_OUT),
                 KEY3_OUT := (if f3 || f4 then true else s.KEY3_OUT),
                 voltage_check_counter :=
                   (if 100 ≤ (s.voltage_check_counter + 1) % 65536 then 0
                    else (s.voltage_check_counter + 1) % 65536),
                 reads := s.reads + 5 + k,
                 conversions :=
                   s.conversions + (if 100 ≤ (s.voltage_check_counter + 1) % 65536 then 1 else 0),
                 trace := s.trace ++ u } ∧
      core u = Event.call Fn.Check_State_Changes ::
        ((if bit (env.pins s.reads).P32 ≠ s.last_human_state ∨
              bit (env.pins (s.reads + 2)).P34 ≠ s.last_led1_state then
            Event.call Fn.Debug_Output_Status ::
              ruleCore Fn.Process_Key1_Logic Fn.Output_Key1_Pulse Line.KEY1_OUT f1
          else []) ++
         (if bit (env.pins (s.reads + 1)).P33 ≠ s.last_pir_state ∨
              bit (env.pins (s.reads + 3)).P35 ≠ s.last_led2_state then
            Event.call Fn.Debug_Output_Status ::
              ruleCore Fn.Process_Key2_Logic Fn.Output_Key2_Pulse Line.KEY2_OUT f2
          else []) ++
         (if bit (env.pins (s.reads + 4)).P14 ≠ s.last_relay3_state then
            Event.call Fn.Debug_Output_Status ::
              ruleCore Fn.Process_Key3_Logic Fn.Output_Key3_Pulse Line.KEY3_OUT f3
          else []) ++
         (if 100 ≤ (s.voltage_check_counter + 1) % 65536 then
            Event.call Fn.Detect_Voltage_Status :: Event.call Fn.Get_VCC_Voltage ::
              ruleCore Fn.Process_Key3_Logic Fn.Output_Key3_Pulse Line.KEY3_OUT f4
          else [])) ∧
      (f1 = true → bit (env.pins s.reads).P32 ≠ s.last_human_state ∨
          bit (env.pins (s.reads + 2)).P34 ≠ s.last_led1_state) ∧
      (f2 = true → bit (env.pins (s.reads + 1)).P33 ≠ s.last_pir_state ∨
          bit (env.pins (s.reads + 3)).P35 ≠ s.last_led2_state) ∧
      (f3 = true → bit (env.pins (s.reads + 4)).P14 ≠ s.last_relay3_state) ∧
      (f4 = true → 100 ≤ (s.voltage_check_counter + 1) % 65536) := by
  rw [Check_State_Changes_unfold]
  have e1 := Check_State_Changes_Key1_spec env (bit (env.pins s.reads).P32)
    (bit (env.pins (s.reads + 2)).P34)
    { s with reads := s.reads + 5, trace := s.trace ++ [Event.call Fn.Check_State_Changes] }
  generalize Check_State_Changes_Key1 env _ _ _ = S1 at e1 ⊢
  obtain ⟨f1, u1, k1, h1, c1, g1⟩ := e1
  have e2 := Check_State_Changes_Key2_spec env (bit (env.pins (s.reads + 1)).P33)
    (bit (env.pins (s.reads + 3)).P35) S1
  generalize Check_State_Changes_Key2 env _ _ _ = S2 at e2 ⊢
  obtain ⟨f2, u2, k2, h2, c2, g2⟩ := e2
  have e3 := Check_State_Changes_Key3_spec env (bit (env.pins (s.reads + 4)).P14) S2
  generalize Check_State_Changes_Key3 env _ _ = S3 at e3 ⊢
  obtain ⟨f3, u3, k3, h3, c3, g3⟩ := e3
  have e4 := Check_State_Changes_Voltage_spec env S3
  generalize Check_State_Changes_Voltage env _ = S4 at e4 ⊢
  obtain ⟨f4, u4, k4, h4, c4, g4⟩ := e4
  have hv : (Get_VCC_Voltage env S3).1 = (Get_VCC_Voltage env s).1 :=
    Get_VCC_Voltage_fst_congr env s S3 (by rw [h3, h2, h1])
  rw [hv] at h4
  subst h1
  subst h2
  subst h3
  simp only [] at c1 c2 c3 c4 g1 g2 g3 g4 h4
  refine ⟨f1, f2, f3, f4, [Event.call Fn.Check_State_Changes] ++ u1 ++ u2 ++ u3 ++ u4,
    k1 + k2 + k3 + k4, ?_, ?_, g1, g2, g3, g4⟩
  · rw [h4]
    cases f3 <;> cases f4 <;> simp [Nat.add_assoc]
  · simp only [core_append, c1, c2, c3, c4]
    simp [core]


/-! # Properties

## Rules 1 and 2 -/

/-- C1. `Process_Key1_Logic` emits a Key1 pulse exactly when the sampled
human-presence level differs from the sampled LED1 level, and when they are
equal nothing is written to any output line; `Process_Key2_Logic` does the
same on Key2 for the secondary-presence (PIR_IN) and LED2 levels. -/
theorem Process_Key1_Key2_Logic_pulse_iff_mismatch (env : Env) (s : State) :
    (outputs (eventsOf s (Process_Key1_Logic env s)) =
        if (env.pins s.reads).P32 ≠ (env.pins (s.reads + 1)).P34
        then pulse Line.KEY1_OUT else []) ∧
    (calls Fn.Output_Key1_Pulse (eventsOf s (Process_Key1_Logic env s)) = 1 ↔
        (env.pins s.reads).P32 ≠ (env.pins (s.reads + 1)).P34) ∧
    (outputs (eventsOf s (Process_Key2_Logic env s)) =
        if (env.pins s.reads).P33 ≠ (env.pins (s.reads + 1)).P35
        then pulse Line.KEY2_OUT else []) ∧
    (calls Fn.Output_Key2_Pulse (eventsOf s (Process_Key2_Logic env s)) = 1 ↔
        (env.pins s.reads).P33 ≠ (env.pins (s.reads + 1)).P35) := by
  obtain ⟨u, hu, hc⟩ := Process_Key1_Logic_spec env s
  obtain ⟨w, hw, hd⟩ := Process_Key2_Logic_spec env s
  have e1 : eventsOf s (Process_Key1_Logic env s) = u := eventsOf_append _ _ _ (by rw [hu])
  have e2 : eventsOf s (Process_Key2_Logic env s) = w := eventsOf_append _ _ _ (by rw [hw])
  rw [e1, e2, ← outputs_core u, ← outputs_core w, ← calls_core _ u, ← calls_core _ w, hc, hd]
  cases (env.pins s.reads).P32 <;> cases (env.pins (s.reads + 1)).P34 <;>
    cases (env.pins s.reads).P33 <;> cases (env.pins (s.reads + 1)).P35 <;>
    simp [ruleCore, outputs, pulse, calls]

/-! ## Voltage monitor -/

/-- C2. `Detect_Voltage_Status` sets the flags from the reading alone: Low
(`true`, `false`) when the reading is below 3000, High (`false`, `true`)
otherwise, whatever the flags were; in particular 2999 is Low, 3000 and 3001
are High. -/
theorem Detect_Voltage_Status_threshold :
    (∀ (env : Env) (s : State),
      ((Detect_Voltage_Status env s).voltage_low_flag,
        (Detect_Voltage_Status env s).voltage_high_flag) =
        if (Get_VCC_Voltage env s).1 < 3000 then (true, false) else (false, true)) ∧
    (∀ (v : Nat) (s : State),
      ((Detect_Voltage_Status_with v s).voltage_low_flag,
        (Detect_Voltage_Status_with v s).voltage_high_flag) =
        if v < 3000 then (true, false) else (false, true)) ∧
    (∀ s : State,
      ((Detect_Voltage_Status_with 2999 s).voltage_low_flag,
        (Detect_Voltage_Status_with 2999 s).voltage_high_flag) = (true, false)) ∧
    (∀ s : State,
      ((Detect_Voltage_Status_with 3000 s).voltage_low_flag,
        (Detect_Voltage_Status_with 3000 s).voltage_high_flag) = (false, true)) ∧
    (∀ s : State,
      ((Detect_Voltage_Status_with 3001 s).voltage_low_flag,
        (Detect_Voltage_Status_with 3001 s).voltage_high_flag) = (false, true)) := by
  have key : ∀ (v : Nat) (s : State),
      ((Detect_Voltage_Status_with v s).voltage_low_flag,
        (Detect_Voltage_Status_with v s).voltage_high_flag) =
        if v < 3000 then (true, false) else (false, true) := by
    intro v s
    by_cases h : v < 3000 <;>
      simp [Detect_Voltage_Status_with, VOLTAGE_THRESHOLD, h, UART1_Send_String,
        UART1_Send_Voltage, emit]
  refine ⟨?_, key, fun s => ?_, fun s => ?_, fun s => ?_⟩
  · intro env s
    obtain ⟨u, hu, -⟩ := Detect_Voltage_Status_spec env s
    rw [hu]
    by_cases h : (Get_VCC_Voltage env s).1 < 3000 <;> simp [VOLTAGE_THRESHOLD, h]
  · rw [key]; rfl
  · rw [key]; rfl
  · rw [key]; rfl

/-- C3 (evaluation at the failing input). After `Detect_Voltage_Status` has
classified a reading of 3173 mV as High, `LVD_ISR` entered with the LVDF bit
set raises `voltage_low_flag` without clearing `voltage_high_flag`: both
flags are true. -/
theorem LVD_ISR_after_High_both_flags :
    (Detect_Voltage_Status Env.idle State.reset).voltage_low_flag = false ∧
    (Detect_Voltage_Status Env.idle State.reset).voltage_high_flag = true ∧
    (LVD_ISR 0x20
      { Detect_Voltage_Status Env.idle State.reset with PCON := 0x20 }).voltage_low_flag = true ∧
    (LVD_ISR 0x20
      { Detect_Voltage_Status Env.idle State.reset with PCON := 0x20 }).voltage_high_flag = true := by
  obtain ⟨u, hu, -⟩ := Detect_Voltage_Status_spec Env.idle State.reset
  have hv : (Get_VCC_Voltage Env.idle State.reset).1 = 3173 := by
    rw [Get_VCC_Voltage_fst]
    simp [adc_val, Env.idle, State.reset, REF_VOLTAGE]
  rw [hu, hv]
  simp [LVD_ISR, emit, UART1_Send_String, VOLTAGE_THRESHOLD, State.reset]


/-- Every operation other than `LVD_ISR` with the LVDF bit set keeps the two
voltage flags from being true together. -/
theorem voltage_flags_exclusive_preserved (LVDF : Nat) (env : Env) (s : State)
    (h : ¬ (s.voltage_low_flag = true ∧ s.voltage_high_flag = true)) :
    ¬ ((Detect_Voltage_Status env s).voltage_low_flag = true ∧
        (Detect_Voltage_Status env s).voltage_high_flag = true) ∧
    ¬ ((Check_State_Changes env s).voltage_low_flag = true ∧
        (Check_State_Changes env s).voltage_high_flag = true) ∧
    ¬ ((Process_Key1_Logic env s).voltage_low_flag = true ∧
        (Process_Key1_Logic env s).voltage_high_flag = true) ∧
    ¬ ((Process_Key2_Logic env s).voltage_low_flag = true ∧
        (Process_Key2_Logic env s).voltage_high_flag = true) ∧
    ¬ ((Process_Key3_Logic env s).voltage_low_flag = true ∧
        (Process_Key3_Logic env s).voltage_high_flag = true) ∧
    (s.PCON &&& LVDF = 0 →
      ¬ ((LVD_ISR LVDF s).voltage_low_flag = true ∧
          (LVD_ISR LVDF s).voltage_high_flag = true)) := by
  obtain ⟨u0, h0, -⟩ := Detect_Voltage_Status_spec env s
  obtain ⟨f1, f2, f3, f4, u, k, hu, -⟩ := Check_State_Changes_spec env s
  obtain ⟨u1, h1, -⟩ := Process_Key1_Logic_spec env s
  obtain ⟨u2, h2, -⟩ := Process_Key2_Logic_spec env s
  obtain ⟨u3, h3, -⟩ := Process_Key3_Logic_spec env s
  rw [h0, hu, h1, h2, h3]
  refine ⟨by simp, ?_, h, h, h, ?_⟩
  · by_cases hr : 100 ≤ (s.voltage_check_counter + 1) % 65536
    · simp [hr]
    · simpa [hr] using h
  · intro hz
    simpa [LVD_ISR, emit, hz] using h

/-! ## Rule 3 -/

/-- C4. With exactly one voltage flag true, `Process_Key3_Logic` emits a Key3
pulse exactly when `voltage_low_flag` differs from the sampled Relay3 level
(low and relay not open, or high and relay open), and otherwise writes no
output line. -/
theorem Process_Key3_Logic_pulse_iff_mismatch (env : Env) (s : State)
    (h : s.voltage_low_flag ≠ s.voltage_high_flag) :
    (outputs (eventsOf s (Process_Key3_Logic env s)) =
        if s.voltage_low_flag ≠ (env.pins s.reads).P14 then pulse Line.KEY3_OUT else []) ∧
    (calls Fn.Output_Key3_Pulse (eventsOf s (Process_Key3_Logic env s)) = 1 ↔
        s.voltage_low_flag ≠ (env.pins s.reads).P14) ∧
    (s.voltage_low_flag ≠ (env.pins s.reads).P14 ↔
        (s.voltage_low_flag = true ∧ (env.pins s.reads).P14 = false) ∨
        (s.voltage_high_flag = true ∧ (env.pins s.reads).P14 = true)) := by
  obtain ⟨u, hu, hc⟩ := Process_Key3_Logic_spec env s
  have e1 : eventsOf s (Process_Key3_Logic env s) = u := eventsOf_append _ _ _ (by rw [hu])
  rw [e1, ← outputs_core u, ← calls_core _ u, hc]
  revert h
  cases s.voltage_low_flag <;> cases s.voltage_high_flag <;> cases (env.pins s.reads).P14 <;>
    simp [ruleCore, outputs, pulse, calls]

/-- C4 at a concrete input: status Low, Relay3 feedback low. -/
theorem Process_Key3_Logic_pulse_iff_mismatch_witness :
    outputs (eventsOf { State.reset with voltage_low_flag := true }
      (Process_Key3_Logic Env.idle { State.reset with voltage_low_flag := true })) =
      pulse Line.KEY3_OUT :=
  (Process_Key3_Logic_pulse_iff_mismatch Env.idle { State.reset with voltage_low_flag := true }
    (by decide)).1

/-- C5. With both voltage flags false (status Unknown), `Process_Key3_Logic`
emits no pulse and writes no output line, whatever the Relay3 level. -/
theorem Process_Key3_Logic_unknown_silent (env : Env) (s : State)
    (hl : s.voltage_low_flag = false) (hh : s.voltage_high_flag = false) :
    outputs (eventsOf s (Process_Key3_Logic env s)) = [] ∧
    writes (eventsOf s (Process_Key3_Logic env s)) = [] ∧
    calls Fn.Output_Key3_Pulse (eventsOf s (Process_Key3_Logic env s)) = 0 ∧
    (Process_Key3_Logic env s).toOutputLines = s.toOutputLines := by
  obtain ⟨u, hu, hc⟩ := Process_Key3_Logic_spec env s
  have e1 : eventsOf s (Process_Key3_Logic env s) = u := eventsOf_append _ _ _ (by rw [hu])
  rw [e1, ← outputs_core u, ← writes_core u, ← calls_core _ u, hc, hu]
  simp [hl, hh, ruleCore, outputs, writes, calls]

/-- C5 at a concrete input: the reset state, where both flags are false. -/
theorem Process_Key3_Logic_unknown_silent_witness :
    outputs (eventsOf State.reset (Process_Key3_Logic Env.idle State.reset)) = [] :=
  (Process_Key3_Logic_unknown_silent Env.idle State.reset rfl rfl).1

/-! ## Pulse emitters -/

/-- C9. Each emitter performs exactly: write 0 to its own line, delay 50 ms,
write 1 to the same line; on return that line is 1 and nothing else in the
state (the other key lines and POWER_CTRL included) has changed. Two calls in
succession give two such sequences one after the other. -/
theorem Output_Key_Pulse_shape (s : State) :
    (Output_Key1_Pulse s =
      { s with KEY1_OUT := true,
               trace := s.trace ++ [Event.call Fn.Output_Key1_Pulse,
                 Event.write Line.KEY1_OUT false, Event.delay 50,
                 Event.write Line.KEY1_OUT true] }) ∧
    (Output_Key2_Pulse s =
      { s with KEY2_OUT := true,
               trace := s.trace ++ [Event.call Fn.Output_Key2_Pulse,
                 Event.write Line.KEY2_OUT false, Event.delay 50,
                 Event.write Line.KEY2_OUT true] }) ∧
    (Output_Key3_Pulse s =
      { s with KEY3_OUT := true,
               trace := s.trace ++ [Event.call Fn.Output_Key3_Pulse,
                 Event.write Line.KEY3_OUT false, Event.delay 50,
                 Event.write Line.KEY3_OUT true] }) ∧
    (outputs (eventsOf s (Output_Key1_Pulse (Output_Key1_Pulse s))) =
      [Event.write Line.KEY1_OUT false, Event.delay 50, Event.write Line.KEY1_OUT true,
       Event.write Line.KEY1_OUT false, Event.delay 50, Event.write Line.KEY1_OUT true]) ∧
    (outputs (eventsOf s (Output_Key2_Pulse (Output_Key2_Pulse s))) =
      [Event.write Line.KEY2_OUT false, Event.delay 50, Event.write Line.KEY2_OUT true,
       Event.write Line.KEY2_OUT false, Event.delay 50, Event.write Line.KEY2_OUT true]) ∧
    (outputs (eventsOf s (Output_Key3_Pulse (Output_Key3_Pulse s))) =
      [Event.write Line.KEY3_OUT false, Event.delay 50, Event.write Line.KEY3_OUT true,
       Event.write Line.KEY3_OUT false, Event.delay 50, Event.write Line.KEY3_OUT true]) := by
  refine ⟨?_, ?_, ?_, ?_, ?_, ?_⟩ <;>
    simp [Output_Key1_Pulse, Output_Key2_Pulse, Output_Key3_Pulse, setLine, emit, Delay_ms,
      DELAY_0_05S, eventsOf, outputs]

/-! ## Supervisor: no change -/

/-- C6. When the five sampled values equal the snapshot and the incremented
counter stays below 100, `Check_State_Changes` only advances the counter:
its trace contribution is its own call marker (no rule is evaluated, no
pulse, no output-line write), and snapshot and voltage flags are unchanged.
Nothing is assumed about desired/actual pairs being matched. -/
theorem Check_State_Changes_no_change (env : Env) (s : State)
    (h1 : bit (env.pins s.reads).P32 = s.last_human_state)
    (h2 : bit (env.pins (s.reads + 1)).P33 = s.last_pir_state)
    (h3 : bit (env.pins (s.reads + 2)).P34 = s.last_led1_state)
    (h4 : bit (env.pins (s.reads + 3)).P35 = s.last_led2_state)
    (h5 : bit (env.pins (s.reads + 4)).P14 = s.last_relay3_state)
    (hc : (s.voltage_check_counter + 1) % 65536 < 100) :
    Check_State_Changes env s =
      { s with voltage_check_counter := (s.voltage_check_counter + 1) % 65536,
               reads := s.reads + 5,
               trace := s.trace ++ [Event.call Fn.Check_State_Changes] } ∧
    eventsOf s (Check_State_Changes env s) = [Event.call Fn.Check_State_Changes] ∧
    (Check_State_Changes env s).toPreviousStateSnapshot = s.toPreviousStateSnapshot ∧
    (Check_State_Changes env s).toVoltageStatus = s.toVoltageStatus ∧
    (Check_State_Changes env s).toOutputLines = s.toOutputLines := by
  have e : Check_State_Changes env s =
      { s with voltage_check_counter := (s.voltage_check_counter + 1) % 65536,
               reads := s.reads + 5,
               trace := s.trace ++ [Event.call Fn.Check_State_Changes] } := by
    rw [Check_State_Changes_unfold,
      Check_State_Changes_Key1_same env _ _
        { s with reads := s.reads + 5,
                 trace := s.trace ++ [Event.call Fn.Check_State_Changes] } h1 h3,
      Check_State_Changes_Key2_same env _ _
        { s with reads := s.reads + 5,
                 trace := s.trace ++ [Event.call Fn.Check_State_Changes] } h2 h4,
      Check_State_Changes_Key3_same env _
        { s with reads := s.reads + 5,
                 trace := s.trace ++ [Event.call Fn.Check_State_Changes] } h5,
      Check_State_Changes_Voltage_skip env
        { s with reads := s.reads + 5,
                 trace := s.trace ++ [Event.call Fn.Check_State_Changes] } hc]
  refine ⟨e, eventsOf_append _ _ _ (by rw [e]), ?_, ?_, ?_⟩ <;> rw [e]


/-- C6 at a concrete input: human presence is high while LED1 is low (rule 1 is
mismatched), but nothing differs from the snapshot. -/
theorem Check_State_Changes_no_change_witness :
    eventsOf { State.reset with last_human_state := 1 }
      (Check_State_Changes (Env.const { Pins.idle with P32 := true } (fun _ => 0x60) (fun _ => 0))
        { State.reset with last_human_state := 1 }) =
      [Event.call Fn.Check_State_Changes] :=
  (Check_State_Changes_no_change (Env.const { Pins.idle with P32 := true } (fun _ => 0x60) (fun _ => 0))
    { State.reset with last_human_state := 1 }
    (by decide) (by decide) (by decide) (by decide) (by decide) (by decide)).2.1

/-! ## Supervisor: which functions one call runs -/

/-- How often each function is entered during one `Check_State_Changes`. -/
theorem Check_State_Changes_calls (env : Env) (s : State) :
    ∃ u, (Check_State_Changes env s).trace = s.trace ++ u ∧
      calls Fn.Check_State_Changes u = 1 ∧
      calls Fn.Process_Key1_Logic u =
        (if bit (env.pins s.reads).P32 ≠ s.last_human_state ∨
            bit (env.pins (s.reads + 2)).P34 ≠ s.last_led1_state then 1 else 0) ∧
      calls Fn.Process_Key2_Logic u =
        (if bit (env.pins (s.reads + 1)).P33 ≠ s.last_pir_state ∨
            bit (env.pins (s.reads + 3)).P35 ≠ s.last_led2_state then 1 else 0) ∧
      calls Fn.Process_Key3_Logic u =
        (if bit (env.pins (s.reads + 4)).P14 ≠ s.last_relay3_state then 1 else 0) +
        (if 100 ≤ (s.voltage_check_counter + 1) % 65536 then 1 else 0) ∧
      calls Fn.Detect_Voltage_Status u =
        (if 100 ≤ (s.voltage_check_counter + 1) % 65536 then 1 else 0) ∧
      calls Fn.WDT_Feed u = 0 := by
  obtain ⟨f1, f2, f3, f4, u, k, hu, hc, -, -, -, -⟩ := Check_State_Changes_spec env s
  refine ⟨u, by rw [hu], ?_⟩
  simp only [← calls_core _ u, hc]
  refine ⟨?_, ?_, ?_, ?_, ?_, ?_⟩ <;>
    · split_ifs <;> simp [calls_append, calls_cons_call, calls_nil, calls_ruleCore]


/-! ## Main loop: watchdog -/

/-- One loop iteration appends the feed and the 10 ms delay to what
`Check_State_Changes` traced. -/
theorem main_iteration_trace (env : Env) (s : State) :
    (main_iteration env s).trace =
      (Check_State_Changes env s).trace ++ [Event.call Fn.WDT_Feed, Event.delay 10] := by
  simp [main_iteration, WDT_Feed, Delay_ms, emit, DELAY_10MS]

/-- The trace of `N` iterations extends the initial trace and holds `N` feeds. -/
theorem main_loop_trace (env : Env) (N : Nat) :
    ∀ s : State, ∃ w, (main_loop env N s).trace = s.trace ++ w ∧ calls Fn.WDT_Feed w = N := by
  induction N with
  | zero => intro s; exact ⟨[], by simp [main_loop], rfl⟩
  | succ n ih =>
    intro s
    obtain ⟨u, hu, -, -, -, -, -, hf⟩ := Check_State_Changes_calls env s
    obtain ⟨w, hw, hc⟩ := ih (main_iteration env s)
    refine ⟨u ++ [Event.call Fn.WDT_Feed, Event.delay 10] ++ w, ?_, ?_⟩
    · rw [main_loop, hw, main_iteration_trace, hu]
      simp
    · simp [calls_append, hf, hc, calls_cons_call, calls_cons_delay, calls_nil, Nat.add_comm]

/-- C10. One iteration of the main loop is `Check_State_Changes` followed by
exactly one `WDT_Feed` and then the 10 ms delay, whatever path
`Check_State_Changes` takes (it never feeds the watchdog itself); hence `N`
iterations feed the watchdog exactly `N` times. -/
theorem main_loop_feeds_watchdog (env : Env) (s : State) :
    eventsOf s (main_iteration env s) =
      eventsOf s (Check_State_Changes env s) ++ [Event.call Fn.WDT_Feed, Event.delay 10] ∧
    calls Fn.WDT_Feed (eventsOf s (Check_State_Changes env s)) = 0 ∧
    calls Fn.WDT_Feed (eventsOf s (main_iteration env s)) = 1 ∧
    ∀ N : Nat, calls Fn.WDT_Feed (eventsOf s (main_loop env N s)) = N := by
  obtain ⟨u, hu, -, -, -, -, -, hf⟩ := Check_State_Changes_calls env s
  have e1 : eventsOf s (Check_State_Changes env s) = u := eventsOf_append _ _ _ hu
  have e2 : eventsOf s (main_iteration env s) = u ++ [Event.call Fn.WDT_Feed, Event.delay 10] :=
    eventsOf_append _ _ _ (by rw [main_iteration_trace, hu, List.append_assoc])
  refine ⟨by rw [e1, e2], by rw [e1, hf], ?_, ?_⟩
  · rw [e2]
    simp [calls_append, hf, calls_cons_call, calls_cons_delay, calls_nil]
  · intro N
    obtain ⟨w, hw, hc⟩ := main_loop_trace env N s
    rw [eventsOf_append _ _ _ hw, hc]

/-! ## Supervisor: periodic voltage check -/

/-- The counter after one call. -/
theorem Check_State_Changes_counter (env : Env) (s : State) :
    (Check_State_Changes env s).voltage_check_counter =
      if 100 ≤ (s.voltage_check_counter + 1) % 65536 then 0
      else (s.voltage_check_counter + 1) % 65536 := by
  obtain ⟨f1, f2, f3, f4, u, k, hu, -⟩ := Check_State_Changes_spec env s
  rw [hu]

/-- The snapshot after one call holds the five values sampled at its start. -/
theorem Check_State_Changes_snapshot (env : Env) (s : State) :
    (Check_State_Changes env s).toPreviousStateSnapshot =
      { last_human_state := bit (env.pins s.reads).P32,
        last_pir_state := bit (env.pins (s.reads + 1)).P33,
        last_led1_state := bit (env.pins (s.reads + 2)).P34,
        last_led2_state := bit (env.pins (s.reads + 3)).P35,
        last_relay3_state := bit (env.pins (s.reads + 4)).P14 } := by
  obtain ⟨f1, f2, f3, f4, u, k, hu, -⟩ := Check_State_Changes_spec env s
  rw [hu]

/-- After `n` calls from counter 0: the counter is `n % 100` and
`Detect_Voltage_Status` has run `n / 100` times. -/
theorem Check_State_Changes_times_Detect (env : Env) (s : State)
    (h0 : s.voltage_check_counter = 0) (n : Nat) :
    (Check_State_Changes_times env n s).voltage_check_counter = n % 100 ∧
    ∃ w, (Check_State_Changes_times env n s).trace = s.trace ++ w ∧
      calls Fn.Detect_Voltage_Status w = n / 100 := by
  induction n with
  | zero => exact ⟨by simp [Check_State_Changes_times, h0], [], by simp [Check_State_Changes_times], rfl⟩
  | succ n ih =>
    obtain ⟨hc, w, hw, hd⟩ := ih
    obtain ⟨u, hu, -, -, -, -, hdu, -⟩ :=
      Check_State_Changes_calls env (Check_State_Changes_times env n s)
    refine ⟨?_, w ++ u, ?_, ?_⟩
    · rw [Check_State_Changes_times, Check_State_Changes_counter, hc]
      split_ifs <;> omega
    · rw [Check_State_Changes_times, hu, hw, List.append_assoc]
    · rw [calls_append, hd, hdu, hc]
      split_ifs <;> omega

/-- With the inputs held at `p` and the snapshot equal to `p`: the snapshot
stays, and `Process_Key3_Logic` has run `n / 100` times after `n` calls. -/
theorem Check_State_Changes_times_static (env : Env) (s : State) (p : Pins)
    (h0 : s.voltage_check_counter = 0) (hp : ∀ i, env.pins i = p)
    (hs : s.toPreviousStateSnapshot =
      { last_human_state := bit p.P32, last_pir_state := bit p.P33,
        last_led1_state := bit p.P34, last_led2_state := bit p.P35,
        last_relay3_state := bit p.P14 }) (n : Nat) :
    (Check_State_Changes_times env n s).toPreviousStateSnapshot = s.toPreviousStateSnapshot ∧
    ∃ w, (Check_State_Changes_times env n s).trace = s.trace ++ w ∧
      calls Fn.Process_Key3_Logic w = n / 100 := by
  induction n with
  | zero => exact ⟨rfl, [], by simp [Check_State_Changes_times], rfl⟩
  | succ n ih =>
    obtain ⟨hsn, w, hw, hd⟩ := ih
    have hc := (Check_State_Changes_times_Detect env s h0 n).1
    obtain ⟨u, hu, -, -, -, h3, -, -⟩ :=
      Check_State_Changes_calls env (Check_State_Changes_times env n s)
    have hr : (Check_State_Changes_times env n s).last_relay3_state = bit p.P14 := by
      show (Check_State_Changes_times env n s).toPreviousStateSnapshot.last_relay3_state = _
      rw [hsn, hs]
    refine ⟨?_, w ++ u, ?_, ?_⟩
    · rw [Check_State_Changes_times, Check_State_Changes_snapshot, hs]
      simp [hp]
    · rw [Check_State_Changes_times, hu, hw, List.append_assoc]
    · rw [calls_append, hd, h3, hc, hp, hr]
      simp only [ne_eq, not_true_eq_false, if_false]
      split_ifs <;> omega


/-- C7. From `voltage_check_counter = 0`, over `n` consecutive calls of
`Check_State_Changes` the voltage monitor runs exactly `n / 100` times: call
number `k + 1` runs `Detect_Voltage_Status` exactly when `100 ∣ k + 1`, and
in such a call the trace ends with `Detect_Voltage_Status` followed by an
evaluation of `Process_Key3_Logic`, for any inputs. With the inputs held at
the values of the snapshot, over 250 calls `Detect_Voltage_Status` and
`Process_Key3_Logic` each run exactly twice, in calls 100 and 200. -/
theorem Check_State_Changes_voltage_period (env : Env) (s : State)
    (h0 : s.voltage_check_counter = 0) :
    (∀ n : Nat,
      calls Fn.Detect_Voltage_Status (eventsOf s (Check_State_Changes_times env n s)) = n / 100) ∧
    (∀ k : Nat,
      calls Fn.Detect_Voltage_Status
        (eventsOf (Check_State_Changes_times env k s) (Check_State_Changes_times env (k + 1) s)) =
        if 100 ∣ k + 1 then 1 else 0) ∧
    (∀ k : Nat, 100 ∣ k + 1 →
      ∃ (pre : List Event) (f : Bool),
        core (eventsOf (Check_State_Changes_times env k s)
          (Check_State_Changes_times env (k + 1) s)) =
          pre ++ Event.call Fn.Detect_Voltage_Status :: Event.call Fn.Get_VCC_Voltage ::
            ruleCore Fn.Process_Key3_Logic Fn.Output_Key3_Pulse Line.KEY3_OUT f ∧
        calls Fn.Detect_Voltage_Status pre = 0) ∧
    (∀ p : Pins, (∀ i, env.pins i = p) →
      s.toPreviousStateSnapshot =
        { last_human_state := bit p.P32, last_pir_state := bit p.P33,
          last_led1_state := bit p.P34, last_led2_state := bit p.P35,
          last_relay3_state := bit p.P14 } →
      calls Fn.Detect_Voltage_Status (eventsOf s (Check_State_Changes_times env 250 s)) = 2 ∧
      calls Fn.Process_Key3_Logic (eventsOf s (Check_State_Changes_times env 250 s)) = 2 ∧
      (∀ k : Nat, k < 250 →
        calls Fn.Detect_Voltage_Status
          (eventsOf (Check_State_Changes_times env k s)
            (Check_State_Changes_times env (k + 1) s)) =
          (if k + 1 = 100 ∨ k + 1 = 200 then 1 else 0) ∧
        calls Fn.Process_Key3_Logic
          (eventsOf (Check_State_Changes_times env k s)
            (Check_State_Changes_times env (k + 1) s)) =
          (if k + 1 = 100 ∨ k + 1 = 200 then 1 else 0))) := by
  have step : ∀ k : Nat,
      calls Fn.Detect_Voltage_Status
        (eventsOf (Check_State_Changes_times env k s) (Check_State_Changes_times env (k + 1) s)) =
        if 100 ∣ k + 1 then 1 else 0 := by
    intro k
    have hc := (Check_State_Changes_times_Detect env s h0 k).1
    obtain ⟨u, hu, -, -, -, -, hdu, -⟩ :=
      Check_State_Changes_calls env (Check_State_Changes_times env k s)
    have e : eventsOf (Check_State_Changes_times env k s)
        (Check_State_Changes_times env (k + 1) s) = u := eventsOf_append _ _ _ hu
    rw [e, hdu, hc]
    split_ifs <;> omega
  refine ⟨?_, step, ?_, ?_⟩
  · intro n
    obtain ⟨-, w, hw, hd⟩ := Check_State_Changes_times_Detect env s h0 n
    rw [eventsOf_append _ _ _ hw, hd]
  · intro k hk
    have hc := (Check_State_Changes_times_Detect env s h0 k).1
    obtain ⟨f1, f2, f3, f4, u, j, hu, hcore, -⟩ :=
      Check_State_Changes_spec env (Check_State_Changes_times env k s)
    have e : eventsOf (Check_State_Changes_times env k s)
        (Check_State_Changes_times env (k + 1) s) = u :=
      eventsOf_append _ _ _ (by rw [Check_State_Changes_times, hu])
    have hrun : 100 ≤ ((Check_State_Changes_times env k s).voltage_check_counter + 1) % 65536 := by
      rw [hc]; omega
    rw [e, hcore, if_pos hrun]
    refine ⟨_, f4, (List.cons_append _ _ _).symm, ?_⟩
    split_ifs <;> simp [calls_append, calls_cons_call, calls_nil, calls_ruleCore]
  · intro p hp hs
    refine ⟨?_, ?_, ?_⟩
    · obtain ⟨-, w, hw, hd⟩ := Check_State_Changes_times_Detect env s h0 250
      rw [eventsOf_append _ _ _ hw, hd]
    · obtain ⟨-, w, hw, hd⟩ := Check_State_Changes_times_static env s p h0 hp hs 250
      rw [eventsOf_append _ _ _ hw, hd]
    · intro k hk
      constructor
      · rw [step k]
        split_ifs <;> omega
      · have hc := (Check_State_Changes_times_Detect env s h0 k).1
        have hsn := (Check_State_Changes_times_static env s p h0 hp hs k).1
        obtain ⟨u, hu, -, -, -, h3, -, -⟩ :=
          Check_State_Changes_calls env (Check_State_Changes_times env k s)
        have hr : (Check_State_Changes_times env k s).last_relay3_state = bit p.P14 := by
          show (Check_State_Changes_times env k s).toPreviousStateSnapshot.last_relay3_state = _
          rw [hsn, hs]
        have e : eventsOf (Check_State_Changes_times env k s)
            (Check_State_Changes_times env (k + 1) s) = u := eventsOf_append _ _ _ hu
        rw [e, h3, hc, hp, hr]
        simp only [ne_eq, not_true_eq_false, if_false]
        split_ifs <;> omega

/-- C7 at a concrete input: the reset state with all inputs held low. -/
theorem Check_State_Changes_voltage_period_witness :
    calls Fn.Detect_Voltage_Status
      (eventsOf State.reset (Check_State_Changes_times Env.idle 250 State.reset)) = 2 ∧
    calls Fn.Process_Key3_Logic
      (eventsOf State.reset (Check_State_Changes_times Env.idle 250 State.reset)) = 2 :=
  ⟨((Check_State_Changes_voltage_period Env.idle State.reset rfl).2.2.2 Pins.idle
      (fun _ => rfl) rfl).1,
   ((Check_State_Changes_voltage_period Env.idle State.reset rfl).2.2.2 Pins.idle
      (fun _ => rfl) rfl).2.1⟩


/-! ## Startup -/

/-- The whole effect of `main` up to the diagnostic voltage print. -/
theorem main_init_spec (LVDF : Nat) (env : Env) (s : State) :
    ∃ u, main_init LVDF env s =
        { s with voltage_low_flag := decide ((Get_VCC_Voltage env s).1 < VOLTAGE_THRESHOLD),
                 voltage_high_flag := !decide ((Get_VCC_Voltage env s).1 < VOLTAGE_THRESHOLD),
                 POWER_CTRL := true,
                 KEY1_OUT := true,
                 KEY2_OUT := true,
                 KEY3_OUT := true,
                 PCON := s.PCON &&& (0xFF ^^^ (LVDF % 0x100)),
                 WDT_CONTR := WDT_CONFIG,
                 conversions := s.conversions + 2,
                 trace := s.trace ++ u } ∧
      core u =
        [Event.call Fn.System_Init, Event.write Line.POWER_CTRL true,
         Event.write Line.KEY1_OUT true, Event.write Line.KEY2_OUT true,
         Event.write Line.KEY3_OUT true, Event.call Fn.LVD_ADC_Init, Event.delay 2,
         Event.call Fn.WDT_Init, Event.delay 10, Event.call Fn.UART1_Init,
         Event.write Line.POWER_CTRL true, Event.delay 500,
         Event.call Fn.Detect_Voltage_Status, Event.call Fn.Get_VCC_Voltage,
         Event.call Fn.Get_VCC_Voltage] := by
  simp only [main_init]
  obtain ⟨L0, hL0⟩ : ∃ L0 : List Event, L0 =
      [Event.call Fn.System_Init, Event.write Line.POWER_CTRL true,
       Event.write Line.KEY1_OUT true, Event.write Line.KEY2_OUT true,
       Event.write Line.KEY3_OUT true, Event.call Fn.LVD_ADC_Init, Event.delay 2,
       Event.call Fn.WDT_Init, Event.delay 10,
       Event.uart "Watchdog Enabled (8s timeout)\r\n", Event.call Fn.UART1_Init,
       Event.uart "System Initialized\r\n",
       Event.write Line.POWER_CTRL true, Event.delay 500] := ⟨_, rfl⟩
  generalize hS : Delay_ms DELAY_0_5S _ = S
  have hS1 : S =
      { s with
        POWER_CTRL := true,
        KEY1_OUT := true,
        KEY2_OUT := true,
        KEY3_OUT := true,
        PCON := s.PCON &&& (0xFF ^^^ (LVDF % 0x100)),
        WDT_CONTR := WDT_CONFIG,
        trace := s.trace ++ L0 } := by
    subst hS
    subst hL0
    simp [System_Init, LVD_ADC_Init, WDT_Init, UART1_Init, UART1_Send_String, setLine, emit,
      Delay_ms, POWER_CTRL_MODE, DELAY_0_5S]
  obtain ⟨w, hw, hcw⟩ := Detect_Voltage_Status_spec env S
  have hv : (Get_VCC_Voltage env S).1 = (Get_VCC_Voltage env s).1 :=
    Get_VCC_Voltage_fst_congr env s S (by rw [hS1])
  rw [hv] at hw
  refine ⟨L0 ++ w ++ [Event.call Fn.Get_VCC_Voltage,
    Event.uart (UART1_Send_Voltage_buf (Get_VCC_Voltage env (Detect_Voltage_Status env S)).1)],
    ?_, ?_⟩
  · rw [Get_VCC_Voltage_snd, hw, hS1]
    simp [UART1_Send_Voltage, UART1_Send_String, emit]
  · simp only [core_append, hcw, hL0]
    simp [core]

/-- The whole effect of the snapshot seeding. -/
theorem main_seed_spec (env : Env) (s : State) :
    main_seed env s =
      { s with last_human_state := bit (env.pins s.reads).P32,
               last_pir_state := bit (env.pins (s.reads + 1)).P33,
               last_led1_state := bit (env.pins (s.reads + 2)).P34,
               last_led2_state := bit (env.pins (s.reads + 3)).P35,
               last_relay3_state := bit (env.pins (s.reads + 4)).P14,
               reads := s.reads + 5 } := by
  simp [main_seed, HUMAN_2410S_IN, PIR_IN, Check_LED1_Status, LED1_STATUS,
    Check_LED2_Status, LED2_STATUS, Check_Relay3_Status, RELAY3_FEEDBACK, readPin,
    Nat.add_assoc, LED1_ON_LEVEL, LED2_ON_LEVEL, RELAY3_OPEN_LEVEL]
  cases (env.pins (s.reads + 4)).P14 <;> cases (env.pins (s.reads + 2)).P34 <;>
    cases (env.pins (s.reads + 3)).P35 <;> simp [bit]

/-- The trace contribution of the first evaluation of the three rules. -/
theorem main_first_logic_spec (env : Env) (s : State) :
    ∃ u, (main_first_logic env s).trace = s.trace ++ u ∧
      core u =
        ruleCore Fn.Process_Key1_Logic Fn.Output_Key1_Pulse Line.KEY1_OUT
          ((env.pins s.reads).P32 != (env.pins (s.reads + 1)).P34) ++
        ruleCore Fn.Process_Key2_Logic Fn.Output_Key2_Pulse Line.KEY2_OUT
          ((env.pins (s.reads + 2)).P33 != (env.pins (s.reads + 3)).P35) ++
        ruleCore Fn.Process_Key3_Logic Fn.Output_Key3_Pulse Line.KEY3_OUT
          ((s.voltage_low_flag && !(env.pins (s.reads + 4)).P14) ||
            (s.voltage_high_flag && (env.pins (s.reads + 4)).P14)) := by
  simp only [main_first_logic]
  have e1 := Process_Key1_Logic_spec env s
  generalize Process_Key1_Logic env s = S1 at e1 ⊢
  obtain ⟨u1, h1, c1⟩ := e1
  have e2 := Process_Key2_Logic_spec env S1
  generalize Process_Key2_Logic env S1 = S2 at e2 ⊢
  obtain ⟨u2, h2, c2⟩ := e2
  have e3 := Process_Key3_Logic_spec env S2
  generalize Process_Key3_Logic env S2 = S3 at e3 ⊢
  obtain ⟨u3, h3, c3⟩ := e3
  subst h1
  subst h2
  subst h3
  simp only [] at c2 c3
  refine ⟨u1 ++ u2 ++ u3, by simp, ?_⟩
  simp only [core_append, c1, c2, c3, Nat.add_assoc]


/-- C8. Startup with the inputs held at `p`: before the main loop is entered
each of the three rules is evaluated exactly once, and the number of pulses
on Key1, Key2, Key3 is 1 when the pair of that rule is mismatched (human
against LED1; PIR against LED2; seeded voltage Low with Relay3 not open, or
High with Relay3 open) and 0 when it is matched. The output-line activity
after the snapshot seeding is exactly those pulses, in rule order. -/
theorem main_startup_sync (LVDF : Nat) (p : Pins) (res resl : Nat → Nat) (s : State) :
    calls Fn.Process_Key1_Logic
      (eventsOf s (main_startup LVDF (Env.const p res resl) s)) = 1 ∧
    calls Fn.Process_Key2_Logic
      (eventsOf s (main_startup LVDF (Env.const p res resl) s)) = 1 ∧
    calls Fn.Process_Key3_Logic
      (eventsOf s (main_startup LVDF (Env.const p res resl) s)) = 1 ∧
    pulsesOn Line.KEY1_OUT (eventsOf s (main_startup LVDF (Env.const p res resl) s)) =
      (if p.P32 ≠ p.P34 then 1 else 0) ∧
    pulsesOn Line.KEY2_OUT (eventsOf s (main_startup LVDF (Env.const p res resl) s)) =
      (if p.P33 ≠ p.P35 then 1 else 0) ∧
    pulsesOn Line.KEY3_OUT (eventsOf s (main_startup LVDF (Env.const p res resl) s)) =
      (if ((Get_VCC_Voltage (Env.const p res resl) s).1 < 3000 ∧ p.P14 = false) ∨
          (3000 ≤ (Get_VCC_Voltage (Env.const p res resl) s).1 ∧ p.P14 = true)
       then 1 else 0) ∧
    outputs (eventsOf (main_seed (Env.const p res resl) (main_init LVDF (Env.const p res resl) s))
        (main_startup LVDF (Env.const p res resl) s)) =
      (if p.P32 ≠ p.P34 then pulse Line.KEY1_OUT else []) ++
      (if p.P33 ≠ p.P35 then pulse Line.KEY2_OUT else []) ++
      (if ((Get_VCC_Voltage (Env.const p res resl) s).1 < 3000 ∧ p.P14 = false) ∨
          (3000 ≤ (Get_VCC_Voltage (Env.const p res resl) s).1 ∧ p.P14 = true)
       then pulse Line.KEY3_OUT else []) := by
  obtain ⟨u, hu, hcu⟩ := main_init_spec LVDF (Env.const p res resl) s
  obtain ⟨w, hw, hcw⟩ := main_first_logic_spec (Env.const p res resl)
    (main_seed (Env.const p res resl) (main_init LVDF (Env.const p res resl) s))
  have hseed : (main_seed (Env.const p res resl)
      (main_init LVDF (Env.const p res resl) s)).trace = s.trace ++ u := by
    rw [main_seed_spec, hu]
  have e1 : eventsOf s (main_startup LVDF (Env.const p res resl) s) = u ++ w :=
    eventsOf_append _ _ _ (by
      show (main_first_logic _ (main_seed _ (main_init LVDF _ s))).trace = _
      rw [hw, hseed, List.append_assoc])
  have e2 : eventsOf (main_seed (Env.const p res resl) (main_init LVDF (Env.const p res resl) s))
      (main_startup LVDF (Env.const p res resl) s) = w := eventsOf_append _ _ _ hw
  rw [main_seed_spec, hu] at hcw
  simp only [Env.const_pins] at hcw
  have hk3 : ∀ b : Bool,
      (((decide ((Get_VCC_Voltage (Env.const p res resl) s).1 < VOLTAGE_THRESHOLD) && !b) ||
        (!decide ((Get_VCC_Voltage (Env.const p res resl) s).1 < VOLTAGE_THRESHOLD) && b)) = true) ↔
      (((Get_VCC_Voltage (Env.const p res resl) s).1 < 3000 ∧ b = false) ∨
        (3000 ≤ (Get_VCC_Voltage (Env.const p res resl) s).1 ∧ b = true)) := by
    intro b
    cases b <;> simp [VOLTAGE_THRESHOLD]
  have hu0 : ∀ x : Line, pulsesOn x (core u) = 0 := by
    intro x
    rw [hcu]
    cases x <;> simp [pulsesOn, List.count_cons]
  have hc : ∀ g : Fn, calls g (u ++ w) = calls g (core u) + calls g (core w) := by
    intro g
    rw [← calls_core, core_append, calls_append]
  have hp : ∀ x : Line, pulsesOn x (u ++ w) = pulsesOn x (core w) := by
    intro x
    rw [← pulsesOn_core, core_append, pulsesOn_append, hu0, Nat.zero_add]
  have ho : outputs w = outputs (core w) := (outputs_core w).symm
  have hi : ∀ g : Fn, g = Fn.Process_Key1_Logic ∨ g = Fn.Process_Key2_Logic ∨
      g = Fn.Process_Key3_Logic → calls g (core u) = 0 := by
    intro g hg
    rw [hcu]
    rcases hg with rfl | rfl | rfl <;> simp [calls, List.count_cons]
  rw [e1, e2, hc, hc, hc, hp, hp, hp, ho, hi _ (Or.inl rfl), hi _ (Or.inr (Or.inl rfl)),
    hi _ (Or.inr (Or.inr rfl)), hcw]
  simp only [pulsesOn_append, calls_append, outputs_append, calls_ruleCore,
    pulsesOn_ruleCore, outputs_ruleCore]
  simp only [hk3, bne_iff_ne]
  simp


/-! ## Voltage reading -/

/-- The assembled raw value fits in 12 bits. -/
theorem adc_val_le (env : Env) (k : Nat) : adc_val env k ≤ 4095 := by
  have h1 : env.ADC_RES k % 256 < 256 := Nat.mod_lt _ (by decide)
  have h2 : ((env.ADC_RES k % 256) <<< 4) % 65536 < 2 ^ 12 := by
    rw [Nat.shiftLeft_eq]
    omega
  have h3 : (env.ADC_RESL k % 256 &&& 0x0F) < 2 ^ 12 :=
    Nat.and_lt_two_pow _ (by decide)
  have h4 := Nat.or_lt_two_pow h2 h3
  have h5 : (((env.ADC_RES k % 256) <<< 4) % 65536 ||| (env.ADC_RESL k % 256 &&& 0x0F)) % 65536
      ≤ ((env.ADC_RES k % 256) <<< 4) % 65536 ||| (env.ADC_RESL k % 256 &&& 0x0F) :=
    Nat.mod_le _ _
  simp only [adc_val]
  omega

/-- C11. When the raw value assembled by `Get_VCC_Voltage` is 0, the division
by it would be undefined, yet the body of `Get_VCC_Voltage` is defined and
returns 0: the guard skips the division. `Detect_Voltage_Status` on that
conversion then sets Low (`voltage_low_flag` true, `voltage_high_flag`
false), whatever the flags were. -/
theorem Get_VCC_Voltage_zero_reading_Low (env : Env) (s : State)
    (h : adc_val env s.conversions = 0) :
    udiv ((REF_VOLTAGE * 4096) % 4294967296) (adc_val env s.conversions) = none ∧
    Get_VCC_Voltage_checked env s =
      some (0, { s with conversions := s.conversions + 1,
                        trace := s.trace ++ [Event.call Fn.Get_VCC_Voltage] }) ∧
    (Get_VCC_Voltage env s).1 = 0 ∧
    (Detect_Voltage_Status env s).voltage_low_flag = true ∧
    (Detect_Voltage_Status env s).voltage_high_flag = false := by
  have hv : (Get_VCC_Voltage env s).1 = 0 := by
    rw [Get_VCC_Voltage_fst, h]
    rfl
  refine ⟨by rw [h]; rfl, ?_, hv, ?_⟩
  · rw [Get_VCC_Voltage_checked_eq, Get_VCC_Voltage_eq, h]
    rfl
  · obtain ⟨u, hu, -⟩ := Detect_Voltage_Status_spec env s
    rw [hu, hv]
    simp [VOLTAGE_THRESHOLD]

/-- C11 at a concrete input: result registers 0x00 and 0xF0 (low nibble 0),
starting from status High. -/
theorem Get_VCC_Voltage_zero_reading_Low_witness :
    Get_VCC_Voltage_checked (Env.const Pins.idle (fun _ => 0) (fun _ => 0xF0))
        { State.reset with voltage_high_flag := true } =
      some (0, { State.reset with voltage_high_flag := true, conversions := 1,
                                  trace := [Event.call Fn.Get_VCC_Voltage] }) ∧
    (Detect_Voltage_Status (Env.const Pins.idle (fun _ => 0) (fun _ => 0xF0))
      { State.reset with voltage_high_flag := true }).voltage_low_flag = true ∧
    (Detect_Voltage_Status (Env.const Pins.idle (fun _ => 0) (fun _ => 0xF0))
      { State.reset with voltage_high_flag := true }).voltage_high_flag = false :=
  ⟨(Get_VCC_Voltage_zero_reading_Low (Env.const Pins.idle (fun _ => 0) (fun _ => 0xF0))
      { State.reset with voltage_high_flag := true } (by decide)).2.1,
   (Get_VCC_Voltage_zero_reading_Low (Env.const Pins.idle (fun _ => 0) (fun _ => 0xF0))
      { State.reset with voltage_high_flag := true } (by decide)).2.2.2⟩

/-- C12 (evaluation at the failing input). From status High, with the LVDF
bit set, `LVD_ISR` leaves `voltage_high_flag` true next to the raised
`voltage_low_flag`, whereas `Detect_Voltage_Status` on a reading of 2999 mV
from the same state leaves Low (`true`, `false`). -/
theorem LVD_ISR_differs_from_Detect_Low :
    ((LVD_ISR 0x20
        { State.reset with voltage_high_flag := true, PCON := 0x20 }).voltage_low_flag,
      (LVD_ISR 0x20
        { State.reset with voltage_high_flag := true, PCON := 0x20 }).voltage_high_flag) =
      (true, true) ∧
    ((Detect_Voltage_Status_with 2999
        { State.reset with voltage_high_flag := true, PCON := 0x20 }).voltage_low_flag,
      (Detect_Voltage_Status_with 2999
        { State.reset with voltage_high_flag := true, PCON := 0x20 }).voltage_high_flag) =
      (true, false) := by
  constructor
  · simp [LVD_ISR, emit, UART1_Send_String, State.reset]
  · simp [Detect_Voltage_Status_with, VOLTAGE_THRESHOLD, UART1_Send_String, UART1_Send_Voltage,
      emit]

/-- C16. For a raw value `a` between 1 and 4095, `Get_VCC_Voltage` returns
`(1190 * 4096 / a) mod 65536`; this is the untruncated quotient
`4874240 / a` exactly when `a ≥ 75`, and for `a ≤ 74` the quotient exceeds
65535 and the returned value is strictly smaller than it. -/
theorem Get_VCC_Voltage_quotient (env : Env) (s : State) (a : Nat)
    (ha : adc_val env s.conversions = a) (h1 : 1 ≤ a) (h2 : a ≤ 4095) :
    (Get_VCC_Voltage env s).1 = (1190 * 4096 / a) % 65536 ∧
    ((Get_VCC_Voltage env s).1 = 4874240 / a ↔ 75 ≤ a) ∧
    (a ≤ 74 → 65535 < 4874240 / a ∧ (Get_VCC_Voltage env s).1 < 4874240 / a) := by
  have hv : (Get_VCC_Voltage env s).1 = (4874240 / a) % 65536 := by
    rw [Get_VCC_Voltage_fst, ha, if_pos (by omega)]
    rfl
  have hq : 4874240 / a < 65536 ↔ 75 ≤ a := by
    rw [Nat.div_lt_iff_lt_mul (by omega)]
    omega
  have hm : (4874240 / a) % 65536 < 65536 := Nat.mod_lt _ (by decide)
  refine ⟨hv, ?_, ?_⟩
  · rw [hv]
    constructor
    · intro h
      by_contra hc
      have : ¬ 4874240 / a < 65536 := fun hh => hc (hq.mp hh)
      omega
    · intro h
      exact Nat.mod_eq_of_lt (hq.mpr h)
  · intro h
    have : ¬ 4874240 / a < 65536 := fun hh => by have := hq.mp hh; omega
    rw [hv]
    omega

/-- C16 at a concrete input: result registers 0x04 and 0x0A, raw value 74,
where the 16-bit result is smaller than the quotient. -/
theorem Get_VCC_Voltage_quotient_witness :
    65535 < 4874240 / 74 ∧
    (Get_VCC_Voltage (Env.const Pins.idle (fun _ => 0x04) (fun _ => 0x0A)) State.reset).1 <
      4874240 / 74 :=
  (Get_VCC_Voltage_quotient (Env.const Pins.idle (fun _ => 0x04) (fun _ => 0x0A)) State.reset 74
    (by decide) (by decide) (by decide)).2.2 (by decide)


/-! ## Supervisor: the three change groups -/

/-- `Check_State_Changes` is the periodic voltage check applied to the state
left by the three change groups. -/
theorem Check_State_Changes_eq_stages (env : Env) (s : State) :
    Check_State_Changes env s =
      Check_State_Changes_Voltage env (Check_State_Changes_afterKey3 env s) := by
  rw [Check_State_Changes_unfold]
  rfl

/-- The state left by the three change groups and their trace contribution
(UART events apart); `f1`, `f2`, `f3` tell which rule evaluations fired. -/
theorem Check_State_Changes_afterKey3_spec (env : Env) (s : State) :
    ∃ (f1 f2 f3 : Bool) (u : List Event) (k : Nat),
      Check_State_Changes_afterKey3 env s =
        { s with last_human_state := bit (env.pins s.reads).P32,
                 last_pir_state := bit (env.pins (s.reads + 1)).P33,
                 last_led1_state := bit (env.pins (s.reads + 2)).P34,
                 last_led2_state := bit (env.pins (s.reads + 3)).P35,
                 last_relay3_state := bit (env.pins (s.reads + 4)).P14,
                 KEY1_OUT := (if f1 then true else s.KEY1_OUT),
                 KEY2_OUT := (if f2 then true else s.KEY2_OUT),
                 KEY3_OUT := (if f3 then true else s.KEY3_OUT),
                 reads := s.reads + 5 + k,
                 trace := s.trace ++ u } ∧
      core u = Event.call Fn.Check_State_Changes ::
        ((if bit (env.pins s.reads).P32 ≠ s.last_human_state ∨
              bit (env.pins (s.reads + 2)).P34 ≠ s.last_led1_state then
            Event.call Fn.Debug_Output_Status ::
              ruleCore Fn.Process_Key1_Logic Fn.Output_Key1_Pulse Line.KEY1_OUT f1
          else []) ++
         (if bit (env.pins (s.reads + 1)).P33 ≠ s.last_pir_state ∨
              bit (env.pins (s.reads + 3)).P35 ≠ s.last_led2_state then
            Event.call Fn.Debug_Output_Status ::
              ruleCore Fn.Process_Key2_Logic Fn.Output_Key2_Pulse Line.KEY2_OUT f2
          else []) ++
         (if bit (env.pins (s.reads + 4)).P14 ≠ s.last_relay3_state then
            Event.call Fn.Debug_Output_Status ::
              ruleCore Fn.Process_Key3_Logic Fn.Output_Key3_Pulse Line.KEY3_OUT f3
          else [])) := by
  simp only [Check_State_Changes_afterKey3, Check_State_Changes_afterKey2,
    Check_State_Changes_afterKey1, Check_State_Changes_sampled]
  have e1 := Check_State_Changes_Key1_spec env (bit (env.pins s.reads).P32)
    (bit (env.pins (s.reads + 2)).P34)
    { s with reads := s.reads + 5, trace := s.trace ++ [Event.call Fn.Check_State_Changes] }
  generalize Check_State_Changes_Key1 env _ _ _ = S1 at e1 ⊢
  obtain ⟨f1, u1, k1, h1, c1, -⟩ := e1
  have e2 := Check_State_Changes_Key2_spec env (bit (env.pins (s.reads + 1)).P33)
    (bit (env.pins (s.reads + 3)).P35) S1
  generalize Check_State_Changes_Key2 env _ _ _ = S2 at e2 ⊢
  obtain ⟨f2, u2, k2, h2, c2, -⟩ := e2
  have e3 := Check_State_Changes_Key3_spec env (bit (env.pins (s.reads + 4)).P14) S2
  generalize Check_State_Changes_Key3 env _ _ = S3 at e3 ⊢
  obtain ⟨f3, u3, k3, h3, c3, -⟩ := e3
  subst h1
  subst h2
  subst h3
  simp only [] at c1 c2 c3
  refine ⟨f1, f2, f3, [Event.call Fn.Check_State_Changes] ++ u1 ++ u2 ++ u3,
    k1 + k2 + k3, ?_, ?_⟩
  · simp [Nat.add_assoc]
  · simp only [core_append, c1, c2, c3]
    simp [core]


/-- `Debug_Output_Status` leaves the snapshot alone. -/
theorem Debug_Output_Status_snapshot (env : Env) (s : State) :
    (Debug_Output_Status env s).toPreviousStateSnapshot = s.toPreviousStateSnapshot := by
  obtain ⟨u, hu, -⟩ := Debug_Output_Status_spec env s
  rw [hu]

/-- The snapshot entries of groups B and C are untouched by group A. -/
theorem Check_State_Changes_afterKey1_frame (env : Env) (s : State) :
    (Check_State_Changes_afterKey1 env s).last_pir_state = s.last_pir_state ∧
    (Check_State_Changes_afterKey1 env s).last_led2_state = s.last_led2_state ∧
    (Check_State_Changes_afterKey1 env s).last_relay3_state = s.last_relay3_state := by
  obtain ⟨f, u, k, h, -, -⟩ := Check_State_Changes_Key1_spec env (bit (env.pins s.reads).P32)
    (bit (env.pins (s.reads + 2)).P34) (Check_State_Changes_sampled s)
  simp only [Check_State_Changes_afterKey1]
  rw [h]
  simp [Check_State_Changes_sampled]

/-- The snapshot entry of group C is untouched by groups A and B. -/
theorem Check_State_Changes_afterKey2_frame (env : Env) (s : State) :
    (Check_State_Changes_afterKey2 env s).last_relay3_state = s.last_relay3_state := by
  obtain ⟨f, u, k, h, -, -⟩ := Check_State_Changes_Key2_spec env
    (bit (env.pins (s.reads + 1)).P33) (bit (env.pins (s.reads + 3)).P35)
    (Check_State_Changes_afterKey1 env s)
  simp only [Check_State_Changes_afterKey2]
  rw [h]
  exact (Check_State_Changes_afterKey1_frame env s).2.2

/-- Group A when a value differs: `Process_Key1_Logic` is entered in a state
that still has the old snapshot, and the two entries are written afterwards. -/
theorem Check_State_Changes_Key1_entry (env : Env) (a b : Nat) (s : State)
    (h : a ≠ s.last_human_state ∨ b ≠ s.last_led1_state) :
    ∃ S : State, S.toPreviousStateSnapshot = s.toPreviousStateSnapshot ∧
      Check_State_Changes_Key1 env a b s =
        { Process_Key1_Logic env S with last_human_state := a, last_led1_state := b } := by
  simp only [Check_State_Changes_Key1, if_pos h]
  generalize hX : UART1_Send_String "\r\n" _ = X
  refine ⟨Debug_Output_Status env X, ?_, rfl⟩
  rw [Debug_Output_Status_snapshot, ← hX]
  split_ifs <;> rfl

/-- Group B when a value differs: `Process_Key2_Logic` is entered in a state
that still has the old snapshot, and the two entries are written afterwards. -/
theorem Check_State_Changes_Key2_entry (env : Env) (a b : Nat) (s : State)
    (h : a ≠ s.last_pir_state ∨ b ≠ s.last_led2_state) :
    ∃ S : State, S.toPreviousStateSnapshot = s.toPreviousStateSnapshot ∧
      Check_State_Changes_Key2 env a b s =
        { Process_Key2_Logic env S with last_pir_state := a, last_led2_state := b } := by
  simp only [Check_State_Changes_Key2, if_pos h]
  generalize hX : UART1_Send_String "\r\n" _ = X
  refine ⟨Debug_Output_Status env X, ?_, rfl⟩
  rw [Debug_Output_Status_snapshot, ← hX]
  split_ifs <;> rfl

/-- Group C when the value differs: `Process_Key3_Logic` is entered in a state
that still has the old snapshot, and the entry is written afterwards. -/
theorem Check_State_Changes_Key3_entry (env : Env) (a : Nat) (s : State)
    (h : a ≠ s.last_relay3_state) :
    ∃ S : State, S.toPreviousStateSnapshot = s.toPreviousStateSnapshot ∧
      Check_State_Changes_Key3 env a s =
        { Process_Key3_Logic env S with last_relay3_state := a } := by
  simp only [Check_State_Changes_Key3, if_pos h]
  refine ⟨Debug_Output_Status env _, ?_, rfl⟩
  rw [Debug_Output_Status_snapshot]
  rfl

/-- C13. In one call of `Check_State_Changes`: `Process_Key1_Logic` runs
once when the sampled human-presence or LED1 value differs from its snapshot
entry and not at all otherwise; likewise `Process_Key2_Logic` for the
secondary-presence and LED2 values; the change-triggered run of
`Process_Key3_Logic` (the one before the periodic check) happens exactly
when the sampled Relay3 value differs from `last_relay3_state`. In each
group the rule function is entered with the group's snapshot entries still
at their old values, and they are then set to the values sampled at the
start of the call. -/
theorem Check_State_Changes_group_calls (env : Env) (s : State) :
    Check_State_Changes env s =
      Check_State_Changes_Voltage env (Check_State_Changes_afterKey3 env s) ∧
    calls Fn.Process_Key1_Logic (eventsOf s (Check_State_Changes env s)) =
      (if bit (env.pins s.reads).P32 ≠ s.last_human_state ∨
          bit (env.pins (s.reads + 2)).P34 ≠ s.last_led1_state then 1 else 0) ∧
    calls Fn.Process_Key2_Logic (eventsOf s (Check_State_Changes env s)) =
      (if bit (env.pins (s.reads + 1)).P33 ≠ s.last_pir_state ∨
          bit (env.pins (s.reads + 3)).P35 ≠ s.last_led2_state then 1 else 0) ∧
    calls Fn.Process_Key3_Logic (eventsOf s (Check_State_Changes_afterKey3 env s)) =
      (if bit (env.pins (s.reads + 4)).P14 ≠ s.last_relay3_state then 1 else 0) ∧
    calls Fn.Process_Key3_Logic (eventsOf s (Check_State_Changes env s)) =
      (if bit (env.pins (s.reads + 4)).P14 ≠ s.last_relay3_state then 1 else 0) +
      (if 100 ≤ (s.voltage_check_counter + 1) % 65536 then 1 else 0) ∧
    (bit (env.pins s.reads).P32 ≠ s.last_human_state ∨
        bit (env.pins (s.reads + 2)).P34 ≠ s.last_led1_state →
      ∃ S : State,
        S.last_human_state = s.last_human_state ∧ S.last_led1_state = s.last_led1_state ∧
        Check_State_Changes_afterKey1 env s =
          { Process_Key1_Logic env S with
            last_human_state := bit (env.pins s.reads).P32,
            last_led1_state := bit (env.pins (s.reads + 2)).P34 }) ∧
    (¬ (bit (env.pins s.reads).P32 ≠ s.last_human_state ∨
        bit (env.pins (s.reads + 2)).P34 ≠ s.last_led1_state) →
      Check_State_Changes_afterKey1 env s = Check_State_Changes_sampled s) ∧
    (bit (env.pins (s.reads + 1)).P33 ≠ s.last_pir_state ∨
        bit (env.pins (s.reads + 3)).P35 ≠ s.last_led2_state →
      ∃ S : State,
        S.last_pir_state = s.last_pir_state ∧ S.last_led2_state = s.last_led2_state ∧
        Check_State_Changes_afterKey2 env s =
          { Process_Key2_Logic env S with
            last_pir_state := bit (env.pins (s.reads + 1)).P33,
            last_led2_state := bit (env.pins (s.reads + 3)).P35 }) ∧
    (¬ (bit (env.pins (s.reads + 1)).P33 ≠ s.last_pir_state ∨
        bit (env.pins (s.reads + 3)).P35 ≠ s.last_led2_state) →
      Check_State_Changes_afterKey2 env s = Check_State_Changes_afterKey1 env s) ∧
    (bit (env.pins (s.reads + 4)).P14 ≠ s.last_relay3_state →
      ∃ S : State,
        S.last_relay3_state = s.last_relay3_state ∧
        Check_State_Changes_afterKey3 env s =
          { Process_Key3_Logic env S with
            last_relay3_state := bit (env.pins (s.reads + 4)).P14 }) ∧
    (¬ bit (env.pins (s.reads + 4)).P14 ≠ s.last_relay3_state →
      Check_State_Changes_afterKey3 env s = Check_State_Changes_afterKey2 env s) := by
  obtain ⟨u, hu, -, hk1, hk2, hk3, -, -⟩ := Check_State_Changes_calls env s
  have e : eventsOf s (Check_State_Changes env s) = u := eventsOf_append _ _ _ hu
  obtain ⟨hp, hl, hr⟩ := Check_State_Changes_afterKey1_frame env s
  have hr2 := Check_State_Changes_afterKey2_frame env s
  refine ⟨Check_State_Changes_eq_stages env s, by rw [e, hk1], by rw [e, hk2], ?_,
    by rw [e, hk3], ?_, ?_, ?_, ?_, ?_, ?_⟩
  · obtain ⟨f1, f2, f3, w, k, hw, hc⟩ := Check_State_Changes_afterKey3_spec env s
    rw [eventsOf_append _ _ w (by rw [hw]), ← calls_core, hc]
    split_ifs <;> simp [calls_append, calls_cons_call, calls_nil, calls_ruleCore]
  · intro h
    obtain ⟨S, hS, hE⟩ := Check_State_Changes_Key1_entry env _ _ (Check_State_Changes_sampled s) h
    refine ⟨S, ?_, ?_, hE⟩
    · show S.toPreviousStateSnapshot.last_human_state = _
      rw [hS]
      rfl
    · show S.toPreviousStateSnapshot.last_led1_state = _
      rw [hS]
      rfl
  · intro h
    exact Check_State_Changes_Key1_same env _ _ (Check_State_Changes_sampled s)
      (by by_contra hne; exact h (Or.inl hne)) (by by_contra hne; exact h (Or.inr hne))
  · intro h
    rw [← hp, ← hl] at h
    obtain ⟨S, hS, hE⟩ :=
      Check_State_Changes_Key2_entry env _ _ (Check_State_Changes_afterKey1 env s) h
    refine ⟨S, ?_, ?_, hE⟩
    · show S.toPreviousStateSnapshot.last_pir_state = _
      rw [hS]
      exact hp
    · show S.toPreviousStateSnapshot.last_led2_state = _
      rw [hS]
      exact hl
  · intro h
    rw [← hp, ← hl] at h
    exact Check_State_Changes_Key2_same env _ _ (Check_State_Changes_afterKey1 env s)
      (by by_contra hne; exact h (Or.inl hne)) (by by_contra hne; exact h (Or.inr hne))
  · intro h
    rw [← hr2] at h
    obtain ⟨S, hS, hE⟩ :=
      Check_State_Changes_Key3_entry env _ (Check_State_Changes_afterKey2 env s) h
    refine ⟨S, ?_, hE⟩
    show S.toPreviousStateSnapshot.last_relay3_state = _
    rw [hS]
    exact hr2
  · intro h
    rw [← hr2] at h
    exact Check_State_Changes_Key3_same env _ (Check_State_Changes_afterKey2 env s)
      (by by_contra hne; exact h hne)


/-! ## Snapshot -/

/-- C14. After the seeding in `main`, and after every call of
`Check_State_Changes` (hence at the end of every loop iteration), each of the
five snapshot variables holds the value of its signal as sampled at the start
of that seeding or call, whether or not a group saw a change. -/
theorem snapshot_holds_sampled_values (env : Env) (s : State) :
    (main_seed env s).toPreviousStateSnapshot =
      { last_human_state := bit (env.pins s.reads).P32,
        last_pir_state := bit (env.pins (s.reads + 1)).P33,
        last_led1_state := bit (env.pins (s.reads + 2)).P34,
        last_led2_state := bit (env.pins (s.reads + 3)).P35,
        last_relay3_state := bit (env.pins (s.reads + 4)).P14 } ∧
    (Check_State_Changes env s).toPreviousStateSnapshot =
      { last_human_state := bit (env.pins s.reads).P32,
        last_pir_state := bit (env.pins (s.reads + 1)).P33,
        last_led1_state := bit (env.pins (s.reads + 2)).P34,
        last_led2_state := bit (env.pins (s.reads + 3)).P35,
        last_relay3_state := bit (env.pins (s.reads + 4)).P14 } ∧
    (main_iteration env s).toPreviousStateSnapshot =
      (Check_State_Changes env s).toPreviousStateSnapshot := by
  refine ⟨?_, Check_State_Changes_snapshot env s, ?_⟩
  · rw [main_seed_spec]
  · simp [main_iteration, WDT_Feed, Delay_ms, emit]

/-! ## Pulses of one supervisor call -/

theorem pulsesOn_cons_call (x : Line) (f : Fn) (l : List Event) :
    pulsesOn x (Event.call f :: l) = pulsesOn x l := by
  simp [pulsesOn, List.count_cons]

theorem pulsesOn_nil (x : Line) : pulsesOn x [] = 0 := rfl

theorem outputs_nil : outputs [] = [] := rfl

theorem outputs_cons_call (f : Fn) (l : List Event) :
    outputs (Event.call f :: l) = outputs l := by
  simp [outputs]

/-- Output-line activity of a guarded rule evaluation that can fire only
under its guard. -/
theorem outputs_guarded_rule (c : Prop) [Decidable c] (d f o : Fn) (l : Line) (b : Bool)
    (h : b = true → c) :
    outputs (if c then Event.call d :: ruleCore f o l b else []) =
      if b = true then pulse l else [] := by
  cases b
  · by_cases hc : c <;> simp [hc, outputs_cons_call, outputs_ruleCore, outputs_nil]
  · simp [h rfl, outputs_cons_call, outputs_ruleCore]

/-- Output-line activity of the guarded periodic check. -/
theorem outputs_guarded_rule2 (c : Prop) [Decidable c] (d e f o : Fn) (l : Line) (b : Bool)
    (h : b = true → c) :
    outputs (if c then Event.call d :: Event.call e :: ruleCore f o l b else []) =
      if b = true then pulse l else [] := by
  cases b
  · by_cases hc : c <;> simp [hc, outputs_cons_call, outputs_ruleCore, outputs_nil]
  · simp [h rfl, outputs_cons_call, outputs_ruleCore]

/-- The output-line activity of one `Check_State_Changes`: complete pulses
only, Key1 then Key2 then Key3 (change-triggered) then Key3 (periodic);
`f1` .. `f4` tell which of them occur, and the key latches follow. -/
theorem Check_State_Changes_outputs (env : Env) (s : State) :
    ∃ (f1 f2 f3 f4 : Bool) (u : List Event),
      (Check_State_Changes env s).trace = s.trace ++ u ∧
      outputs u =
        (if f1 = true then pulse Line.KEY1_OUT else []) ++
        (if f2 = true then pulse Line.KEY2_OUT else []) ++
        (if f3 = true then pulse Line.KEY3_OUT else []) ++
        (if f4 = true then pulse Line.KEY3_OUT else []) ∧
      (Check_State_Changes env s).KEY1_OUT = (if f1 then true else s.KEY1_OUT) ∧
      (Check_State_Changes env s).KEY2_OUT = (if f2 then true else s.KEY2_OUT) ∧
      (Check_State_Changes env s).KEY3_OUT = (if f3 || f4 then true else s.KEY3_OUT) ∧
      (Check_State_Changes env s).POWER_CTRL = s.POWER_CTRL ∧
      (f3 = true → bit (env.pins (s.reads + 4)).P14 ≠ s.last_relay3_state) ∧
      (f4 = true → 100 ≤ (s.voltage_check_counter + 1) % 65536) := by
  obtain ⟨f1, f2, f3, f4, u, k, hu, hc, g1, g2, g3, g4⟩ := Check_State_Changes_spec env s
  refine ⟨f1, f2, f3, f4, u, by rw [hu], ?_, by rw [hu], by rw [hu], by rw [hu], by rw [hu],
    g3, g4⟩
  rw [← outputs_core, hc]
  simp only [outputs_cons_call, outputs_append]
  rw [outputs_guarded_rule _ _ _ _ _ _ g1, outputs_guarded_rule _ _ _ _ _ _ g2,
    outputs_guarded_rule _ _ _ _ _ _ g3, outputs_guarded_rule2 _ _ _ _ _ _ _ g4]


/-- Low phases are counted on the output-line events alone. -/
theorem pulsesOn_outputs (l : Line) (tr : List Event) : pulsesOn l (outputs tr) = pulsesOn l tr := by
  induction tr with
  | nil => rfl
  | cons e tr ih =>
    cases e <;> simp_all [pulsesOn, outputs, List.filter_cons, List.count_cons]

/-- C15. One call of `Check_State_Changes` emits at most one Key1 pulse, at
most one Key2 pulse and at most two Key3 pulses; two Key3 pulses occur only
when the sampled Relay3 value differs from `last_relay3_state` and the
incremented counter reaches 100 in the same call. -/
theorem Check_State_Changes_pulse_bounds (env : Env) (s : State) :
    pulsesOn Line.KEY1_OUT (eventsOf s (Check_State_Changes env s)) ≤ 1 ∧
    pulsesOn Line.KEY2_OUT (eventsOf s (Check_State_Changes env s)) ≤ 1 ∧
    pulsesOn Line.KEY3_OUT (eventsOf s (Check_State_Changes env s)) ≤ 2 ∧
    (pulsesOn Line.KEY3_OUT (eventsOf s (Check_State_Changes env s)) = 2 →
      bit (env.pins (s.reads + 4)).P14 ≠ s.last_relay3_state ∧
      100 ≤ (s.voltage_check_counter + 1) % 65536) := by
  obtain ⟨f1, f2, f3, f4, u, hu, ho, -, -, -, -, g3, g4⟩ := Check_State_Changes_outputs env s
  have e : eventsOf s (Check_State_Changes env s) = u := eventsOf_append _ _ _ hu
  have h1 : pulsesOn Line.KEY1_OUT u = if f1 = true then 1 else 0 := by
    rw [← pulsesOn_outputs, ho]
    cases f1 <;> cases f2 <;> cases f3 <;> cases f4 <;> simp [pulsesOn, pulse, List.count_cons]
  have h2 : pulsesOn Line.KEY2_OUT u = if f2 = true then 1 else 0 := by
    rw [← pulsesOn_outputs, ho]
    cases f1 <;> cases f2 <;> cases f3 <;> cases f4 <;> simp [pulsesOn, pulse, List.count_cons]
  have h3 : pulsesOn Line.KEY3_OUT u =
      (if f3 = true then 1 else 0) + (if f4 = true then 1 else 0) := by
    rw [← pulsesOn_outputs, ho]
    cases f1 <;> cases f2 <;> cases f3 <;> cases f4 <;> simp [pulsesOn, pulse, List.count_cons]
  rw [e, h1, h2, h3]
  refine ⟨by split_ifs <;> omega, by split_ifs <;> omega, by split_ifs <;> omega, ?_⟩
  intro h
  cases f3
  · cases f4 <;> simp at h
  · cases f4
    · simp at h
    · exact ⟨g3 rfl, g4 rfl⟩

/-! ## Key lines idle high -/

/-- `Process_Key1_Logic` returns with the key lines at 1 when entered so. -/
theorem keyLinesHigh_Process_Key1_Logic (env : Env) (s : State) (h : keyLinesHigh s = true) :
    keyLinesHigh (Process_Key1_Logic env s) = true := by
  obtain ⟨u, hu, -⟩ := Process_Key1_Logic_spec env s
  rw [hu]
  simp only [keyLinesHigh, Bool.and_eq_true] at h ⊢
  obtain ⟨⟨a, b⟩, c⟩ := h
  split_ifs <;> simp [a, b, c]

/-- `Process_Key2_Logic` returns with the key lines at 1 when entered so. -/
theorem keyLinesHigh_Process_Key2_Logic (env : Env) (s : State) (h : keyLinesHigh s = true) :
    keyLinesHigh (Process_Key2_Logic env s) = true := by
  obtain ⟨u, hu, -⟩ := Process_Key2_Logic_spec env s
  rw [hu]
  simp only [keyLinesHigh, Bool.and_eq_true] at h ⊢
  obtain ⟨⟨a, b⟩, c⟩ := h
  split_ifs <;> simp [a, b, c]

/-- `Process_Key3_Logic` returns with the key lines at 1 when entered so. -/
theorem keyLinesHigh_Process_Key3_Logic (env : Env) (s : State) (h : keyLinesHigh s = true) :
    keyLinesHigh (Process_Key3_Logic env s) = true := by
  obtain ⟨u, hu, -⟩ := Process_Key3_Logic_spec env s
  rw [hu]
  simp only [keyLinesHigh, Bool.and_eq_true] at h ⊢
  obtain ⟨⟨a, b⟩, c⟩ := h
  split_ifs <;> simp [a, b, c]

/-- `Check_State_Changes` returns with the key lines at 1 when entered so. -/
theorem keyLinesHigh_Check_State_Changes (env : Env) (s : State) (h : keyLinesHigh s = true) :
    keyLinesHigh (Check_State_Changes env s) = true := by
  obtain ⟨f1, f2, f3, f4, u, -, -, k1, k2, k3, -⟩ := Check_State_Changes_outputs env s
  simp only [keyLinesHigh, Bool.and_eq_true] at h ⊢
  obtain ⟨⟨a, b⟩, c⟩ := h
  rw [k1, k2, k3, a, b, c]
  simp

/-- One loop iteration returns with the key lines at 1 when entered so. -/
theorem keyLinesHigh_main_iteration (env : Env) (s : State) (h : keyLinesHigh s = true) :
    keyLinesHigh (main_iteration env s) = true := by
  have := keyLinesHigh_Check_State_Changes env s h
  simpa [main_iteration, WDT_Feed, Delay_ms, emit, keyLinesHigh] using this

/-- Any number of loop iterations keeps the key lines at 1. -/
theorem keyLinesHigh_main_loop (env : Env) (N : Nat) :
    ∀ s : State, keyLinesHigh s = true → keyLinesHigh (main_loop env N s) = true := by
  induction N with
  | zero => intro s h; exact h
  | succ n ih =>
    intro s h
    exact ih _ (keyLinesHigh_main_iteration env s h)

/-- The startup of `main` ends with the key lines at 1. -/
theorem keyLinesHigh_main_startup (LVDF : Nat) (env : Env) (s : State) :
    keyLinesHigh (main_startup LVDF env s) = true := by
  obtain ⟨u, hu, -⟩ := main_init_spec LVDF env s
  have h0 : keyLinesHigh (main_seed env (main_init LVDF env s)) = true := by
    rw [main_seed_spec, hu]
    rfl
  exact keyLinesHigh_Process_Key3_Logic env _
    (keyLinesHigh_Process_Key2_Logic env _ (keyLinesHigh_Process_Key1_Logic env _ h0))


/-- C17. `System_Init` leaves the three key lines at 1, and every operation
of the program returns with them at 1 when it is entered with them at 1: the
three emitters, the three rules, `Detect_Voltage_Status`,
`Check_State_Changes`, and with them the whole startup and any number of loop
iterations. The output-line activity of a `Check_State_Changes` call consists
of complete pulses only, so a key line is 0 only between the two writes of
its own emitter. -/
theorem key_lines_idle_high (env : Env) (s : State) (h : keyLinesHigh s = true) :
    (∀ s0 : State, (System_Init s0).KEY1_OUT = true ∧ (System_Init s0).KEY2_OUT = true ∧
      (System_Init s0).KEY3_OUT = true) ∧
    keyLinesHigh (Output_Key1_Pulse s) = true ∧
    keyLinesHigh (Output_Key2_Pulse s) = true ∧
    keyLinesHigh (Output_Key3_Pulse s) = true ∧
    keyLinesHigh (Process_Key1_Logic env s) = true ∧
    keyLinesHigh (Process_Key2_Logic env s) = true ∧
    keyLinesHigh (Process_Key3_Logic env s) = true ∧
    keyLinesHigh (Detect_Voltage_Status env s) = true ∧
    keyLinesHigh (Check_State_Changes env s) = true ∧
    (∀ N : Nat, keyLinesHigh (main_loop env N s) = true) ∧
    (∀ (LVDF : Nat) (s0 : State), keyLinesHigh (main_startup LVDF env s0) = true) ∧
    (∃ f1 f2 f3 f4 : Bool,
      outputs (eventsOf s (Check_State_Changes env s)) =
        (if f1 = true then pulse Line.KEY1_OUT else []) ++
        (if f2 = true then pulse Line.KEY2_OUT else []) ++
        (if f3 = true then pulse Line.KEY3_OUT else []) ++
        (if f4 = true then pulse Line.KEY3_OUT else [])) := by
  have hs := h
  simp only [keyLinesHigh, Bool.and_eq_true] at hs
  obtain ⟨⟨a, b⟩, c⟩ := hs
  refine ⟨?_, ?_, ?_, ?_, keyLinesHigh_Process_Key1_Logic env s h,
    keyLinesHigh_Process_Key2_Logic env s h, keyLinesHigh_Process_Key3_Logic env s h, ?_,
    keyLinesHigh_Check_State_Changes env s h, fun N => keyLinesHigh_main_loop env N s h,
    fun LVDF s0 => keyLinesHigh_main_startup LVDF env s0, ?_⟩
  · intro s0
    simp [System_Init, setLine, emit]
  · rw [Output_Key1_Pulse_eq]
    simp [keyLinesHigh, b, c]
  · rw [Output_Key2_Pulse_eq]
    simp [keyLinesHigh, a, c]
  · rw [Output_Key3_Pulse_eq]
    simp [keyLinesHigh, a, b]
  · obtain ⟨u, hu, -⟩ := Detect_Voltage_Status_spec env s
    rw [hu]
    simp [keyLinesHigh, a, b, c]
  · obtain ⟨f1, f2, f3, f4, u, hu, ho, -⟩ := Check_State_Changes_outputs env s
    exact ⟨f1, f2, f3, f4, by rw [eventsOf_append _ _ _ hu, ho]⟩

/-- C17 at a concrete input: the state left by `System_Init`, inputs held low. -/
theorem key_lines_idle_high_witness :
    keyLinesHigh (Check_State_Changes Env.idle (System_Init State.reset)) = true :=
  (key_lines_idle_high Env.idle (System_Init State.reset) (by decide)).2.2.2.2.2.2.2.2.1

end HID
